import Mathlib

/-!
# CS330 scene renderer: SceneManager and ViewManager

A shallow embedding of `SceneManager.cpp`: the texture registry
(`CreateGLTexture`, `BindGLTextures`, `DestroyGLTextures`, `FindTextureID`,
`FindTextureSlot`), the material registry (`FindMaterial`), the uniform binder
(`SetTransformations`, `SetShaderColor`, `SetShaderTexture`, `SetTextureUVScale`,
`SetShaderMaterial`) and the scene composer (`PrepareScene`, `RenderScene`); and
of `ViewManager.cpp`: the input callbacks and `PrepareSceneView`.

Member functions become functions on an explicit `SceneManager` or `ViewManager`
state.  The C++ `float` is a type parameter `F`: the registry and binder code
only moves such values around, and the frame timer is read over a field.  Where
rounding decides the outcome (the matrix `SetTransformations` builds, the
`double` coordinates the mouse callback narrows to `float`) `F` is `Float32`,
the finite values of IEEE 754 binary32 with round-to-nearest-even.
-/

namespace CS330

/-! ## Plain data -/

/-- Value of a C++ `GLuint` (unsigned 32 bit) obtained from the `int` `v`. -/
def GLuint.ofInt (v : Int) : Nat := (v % 4294967296).toNat

/-- Value of the C++ `int` obtained from the `GLuint` `n` (two's complement). -/
def GLuint.toInt (n : Nat) : Int :=
  if n % 4294967296 < 2147483648 then ((n % 4294967296 : Nat) : Int)
  else ((n % 4294967296 : Nat) : Int) - 4294967296

/-- One entry of `m_textureIDs`: a tag and the GL texture name (`ID` is handed to
`glGenTextures` by address, so it is a `GLuint`). -/
structure TEXTURE_INFO where
  tag : String
  ID : Nat
deriving DecidableEq, Repr

/-- What `stbi_load` reports about a decoded file; the pixel buffer is not
inspected by the scene manager. -/
structure Image where
  width : Int
  height : Int
  colorChannels : Int
deriving DecidableEq, Repr

structure vec2 (F : Type) where
  x : F
  y : F
deriving DecidableEq, Repr

structure vec3 (F : Type) where
  x : F
  y : F
  z : F
deriving DecidableEq, Repr

structure vec4 (F : Type) where
  r : F
  g : F
  b : F
  a : F
deriving DecidableEq, Repr

/-- A 4x4 matrix, `m i j` being row `i`, column `j` (glm writes it `m[j][i]`). -/
abbrev mat4 (F : Type) := Fin 4 → Fin 4 → F

/-- The matrix with the given four rows. -/
def mat4.ofRows {F : Type} (r0 r1 r2 r3 : F × F × F × F) : mat4 F := fun i j =>
  let row := match i with
    | 0 => r0
    | 1 => r1
    | 2 => r2
    | 3 => r3
  match j with
  | 0 => row.1
  | 1 => row.2.1
  | 2 => row.2.2.1
  | 3 => row.2.2.2

/-- An entry of `m_objectMaterials`. -/
structure OBJECT_MATERIAL (F : Type) where
  ambientColor : vec3 F
  ambientStrength : F
  diffuseColor : vec3 F
  specularColor : vec3 F
  shininess : F
  tag : String
deriving DecidableEq, Repr

/-! ## Collaborators -/

/-- The OpenGL context as far as the texture registry drives it.
`generated` counts the texture names `glGenTextures` has handed out (the names
are `1 .. generated`), `activeUnit` is the unit selected by `glActiveTexture`,
and `bound` lists the `GL_TEXTURE_2D` bindings made, newest first, as
`(unit, texture name)`. -/
structure GLContext where
  generated : Nat
  activeUnit : Nat
  bound : List (Nat × Nat)
deriving DecidableEq, Repr

/-- The call `glGenTextures(1, &name)`: a name that was not in use before. -/
def glGenTextures (gl : GLContext) : Nat × GLContext :=
  (gl.generated + 1, { gl with generated := gl.generated + 1 })

/-- The call `glActiveTexture(GL_TEXTURE0 + i)`. -/
def glActiveTexture (gl : GLContext) (i : Nat) : GLContext :=
  { gl with activeUnit := i }

/-- The call `glBindTexture(GL_TEXTURE_2D, name)` on the active unit. -/
def glBindTexture (gl : GLContext) (name : Nat) : GLContext :=
  { gl with bound := (gl.activeUnit, name) :: gl.bound }

/-- A value held by a named shader uniform. -/
inductive UniformValue (F : Type) where
  | int (v : Int)
  | bool (v : Bool)
  | float (v : F)
  | sampler2D (v : Int)
  | vec2 (v : CS330.vec2 F)
  | vec3 (v : CS330.vec3 F)
  | vec4 (v : CS330.vec4 F)
  | mat4 (v : CS330.mat4 F)
deriving DecidableEq

/-- Modelled from the spec: the shader program object (`ShaderManager`, whose
source is not part of the two files), "named-uniform setters for scalar float,
int/bool, 2/3/4-component vector, and 4x4 matrix types, addressed by uniform
name string".  The state is the list of writes made, newest first. -/
structure ShaderManager (F : Type) where
  uniforms : List (String × UniformValue F)
deriving DecidableEq

/-- Write `v` to the uniform called `name`. -/
def ShaderManager.setUniform {F : Type} (sh : ShaderManager F) (name : String)
    (v : UniformValue F) : ShaderManager F :=
  { uniforms := (name, v) :: sh.uniforms }

/-- Current value of the uniform called `name`: the newest write to it. -/
def ShaderManager.getUniform {F : Type} (sh : ShaderManager F) (name : String) :
    Option (UniformValue F) :=
  (sh.uniforms.find? (fun p => p.1 == name)).map (fun p => p.2)

/-- The setter `setIntValue(name, value)`. -/
def ShaderManager.setIntValue {F : Type} (sh : ShaderManager F) (name : String) (v : Int) :
    ShaderManager F := sh.setUniform name (.int v)

/-- The setter `setBoolValue(name, value)`. -/
def ShaderManager.setBoolValue {F : Type} (sh : ShaderManager F) (name : String) (v : Bool) :
    ShaderManager F := sh.setUniform name (.bool v)

/-- The setter `setFloatValue(name, value)`. -/
def ShaderManager.setFloatValue {F : Type} (sh : ShaderManager F) (name : String) (v : F) :
    ShaderManager F := sh.setUniform name (.float v)

/-- The setter `setSampler2DValue(name, value)`. -/
def ShaderManager.setSampler2DValue {F : Type} (sh : ShaderManager F) (name : String)
    (v : Int) : ShaderManager F := sh.setUniform name (.sampler2D v)

/-- The setter `setVec2Value(name, value)`. -/
def ShaderManager.setVec2Value {F : Type} (sh : ShaderManager F) (name : String)
    (v : vec2 F) : ShaderManager F := sh.setUniform name (.vec2 v)

/-- The setter `setVec3Value(name, value)`. -/
def ShaderManager.setVec3Value {F : Type} (sh : ShaderManager F) (name : String)
    (v : vec3 F) : ShaderManager F := sh.setUniform name (.vec3 v)

/-- The setter `setVec4Value(name, value)`. -/
def ShaderManager.setVec4Value {F : Type} (sh : ShaderManager F) (name : String)
    (v : vec4 F) : ShaderManager F := sh.setUniform name (.vec4 v)

/-- The setter `setMat4Value(name, value)`. -/
def ShaderManager.setMat4Value {F : Type} (sh : ShaderManager F) (name : String)
    (v : mat4 F) : ShaderManager F := sh.setUniform name (.mat4 v)

/-- The primitive kinds of the mesh library. -/
inductive MeshKind where
  | box | plane | cylinder | cone | prism | pyramid4 | sphere | taperedCylinder | torus
deriving DecidableEq, Repr

/-- Modelled from the spec: the mesh library (`ShapeMeshes`, whose source is not
part of the two files), "LoadXMesh() / DrawXMesh() pairs" per primitive kind.
The state records the loads and the draws issued, oldest first. -/
structure ShapeMeshes where
  loaded : List MeshKind
  drawn : List MeshKind
deriving DecidableEq, Repr

/-- The call `LoadXMesh()` for the kind `k`. -/
def ShapeMeshes.load (m : ShapeMeshes) (k : MeshKind) : ShapeMeshes :=
  { m with loaded := m.loaded ++ [k] }

/-- The call `DrawXMesh()` for the kind `k`. -/
def ShapeMeshes.draw (m : ShapeMeshes) (k : MeshKind) : ShapeMeshes :=
  { m with drawn := m.drawn ++ [k] }

/-! ## The scene manager -/

def g_ModelName : String := "model"
def g_ColorValueName : String := "objectColor"
def g_TextureValueName : String := "objectTexture"
def g_UseTextureName : String := "bUseTexture"
def g_UseLightingName : String := "bUseLighting"

/-- State of a `SceneManager` together with the OpenGL context it acts on.

`m_textureIDs i` for `i < 16` is element `i` of the 16-element array; for
`16 ≤ i` it stands for the storage that follows the array, which the array does
not own: a store there is a write out of bounds.  `m_loadedTextures` is the
`int` counter, which starts at 0 and is only ever incremented.
`m_pShaderManager = none` is the `NULL` pointer. -/
structure SceneManager (F : Type) where
  m_pShaderManager : Option (ShaderManager F)
  m_basicMeshes : ShapeMeshes
  m_textureIDs : Nat → TEXTURE_INFO
  m_loadedTextures : Nat
  m_objectMaterials : List (OBJECT_MATERIAL F)
  gl : GLContext

/-- The constructor `SceneManager(pShaderManager)`: the sixteen array elements
get the placeholder tag `"/0"` and the ID `-1`; `storage` is what the memory
held before and still holds outside the array. -/
def SceneManager.new {F : Type} (pShaderManager : Option (ShaderManager F))
    (storage : Nat → TEXTURE_INFO) (gl : GLContext) : SceneManager F :=
  { m_pShaderManager := pShaderManager
    m_basicMeshes := { loaded := [], drawn := [] }
    m_textureIDs := fun i => if i < 16 then { tag := "/0", ID := GLuint.ofInt (-1) } else storage i
    m_loadedTextures := 0
    m_objectMaterials := []
    gl := gl }

/-- The method `CreateGLTexture(filename, tag)`; `stbi_load` is the image
decoder, `none` being its null result. -/
def CreateGLTexture {F : Type} (stbi_load : String → Option Image) (s : SceneManager F)
    (filename : String) (tag : String) : Bool × SceneManager F :=
  match stbi_load filename with
  | some image =>
    let (textureID, gl1) := glGenTextures s.gl
    let gl2 := glBindTexture gl1 textureID
    if image.colorChannels = 3 ∨ image.colorChannels = 4 then
      -- glTexImage2D, glGenerateMipmap, stbi_image_free, then unbind
      let gl3 := glBindTexture gl2 0
      let n := s.m_loadedTextures
      (true,
        { s with
          gl := gl3
          m_textureIDs := fun i => if i = n then { tag := tag, ID := textureID } else s.m_textureIDs i
          m_loadedTextures := n + 1 })
    else
      (false, { s with gl := gl2 })
  | none => (false, s)

/-- The loop of `BindGLTextures`, from index `i` with `remaining` passes to go. -/
def BindGLTextures.loop (ids : Nat → TEXTURE_INFO) : Nat → Nat → GLContext → GLContext
  | 0, _, gl => gl
  | remaining + 1, i, gl =>
    BindGLTextures.loop ids remaining (i + 1) (glBindTexture (glActiveTexture gl i) (ids i).ID)

/-- The method `BindGLTextures()`. -/
def BindGLTextures {F : Type} (s : SceneManager F) : SceneManager F :=
  { s with gl := BindGLTextures.loop s.m_textureIDs s.m_loadedTextures 0 s.gl }

/-- The `while` loop of `FindTextureID`, entered at `index` with `bFound = false`.
`remaining` is `m_loadedTextures - index`, so `remaining = 0` is the failure of
`index < m_loadedTextures`; a match sets `bFound`, which ends the loop with
`textureID` set. -/
def FindTextureID.loop (ids : Nat → TEXTURE_INFO) (tag : String) : Nat → Nat → Int → Int
  | 0, _, textureID => textureID
  | remaining + 1, index, textureID =>
    if (ids index).tag = tag then GLuint.toInt (ids index).ID
    else FindTextureID.loop ids tag remaining (index + 1) textureID

/-- The method `FindTextureID(tag)`. -/
def FindTextureID {F : Type} (s : SceneManager F) (tag : String) : Int :=
  FindTextureID.loop s.m_textureIDs tag s.m_loadedTextures 0 (-1)

/-- The `while` loop of `FindTextureSlot`, entered at `index` with
`bFound = false` (see `FindTextureID.loop`). -/
def FindTextureSlot.loop (ids : Nat → TEXTURE_INFO) (tag : String) : Nat → Nat → Int → Int
  | 0, _, textureSlot => textureSlot
  | remaining + 1, index, textureSlot =>
    if (ids index).tag = tag then (index : Int)
    else FindTextureSlot.loop ids tag remaining (index + 1) textureSlot

/-- The method `FindTextureSlot(tag)`. -/
def FindTextureSlot {F : Type} (s : SceneManager F) (tag : String) : Int :=
  FindTextureSlot.loop s.m_textureIDs tag s.m_loadedTextures 0 (-1)

/-- A sequence of `CreateGLTexture(filename, tag)` calls, as `LoadSceneTextures`
issues them; the result lists the return values in call order. -/
def loadSequence {F : Type} (stbi_load : String → Option Image) :
    SceneManager F → List (String × String) → List Bool × SceneManager F
  | s, [] => ([], s)
  | s, (filename, tag) :: rest =>
    let r := CreateGLTexture stbi_load s filename tag
    let rs := loadSequence stbi_load r.2 rest
    (r.1 :: rs.1, rs.2)

/-- The tags of the calls that returned `true`, in call order. -/
def loadedTags : List (String × String) → List Bool → List String
  | (_, tag) :: calls, true :: rets => tag :: loadedTags calls rets
  | _ :: calls, false :: rets => loadedTags calls rets
  | _, _ => []

/-- The loop of `FindMaterial` over the entries from the current index on, with
`bFound = false`: the first entry whose tag compares equal has its five
reflectance fields copied into `material` and ends the loop. -/
def FindMaterial.loop {F : Type} (tag : String) :
    List (OBJECT_MATERIAL F) → OBJECT_MATERIAL F → OBJECT_MATERIAL F
  | [], material => material
  | m :: rest, material =>
    if m.tag = tag then
      { material with
        ambientColor := m.ambientColor
        ambientStrength := m.ambientStrength
        diffuseColor := m.diffuseColor
        specularColor := m.specularColor
        shininess := m.shininess }
    else FindMaterial.loop tag rest material

/-- The method `FindMaterial(tag, material)`: the return value and the content
of the reference argument `material` afterwards. -/
def FindMaterial {F : Type} (s : SceneManager F) (tag : String) (material : OBJECT_MATERIAL F) :
    Bool × OBJECT_MATERIAL F :=
  if s.m_objectMaterials.length = 0 then (false, material)
  else (true, FindMaterial.loop tag s.m_objectMaterials material)

/-! ### glm -/

/-- The scalar functions `SetTransformations` reaches through glm. -/
structure GlmMath (F : Type) where
  radians : F → F
  cos : F → F
  sin : F → F
  inversesqrt : F → F

/-- The product `a * b` of two `glm::mat4`. -/
def glm.mul {F : Type} [Add F] [Mul F] (a b : mat4 F) : mat4 F :=
  fun i j => a i 0 * b 0 j + a i 1 * b 1 j + a i 2 * b 2 j + a i 3 * b 3 j

/-- The call `glm::scale(v)`: the identity with its first three columns
multiplied by the components of `v`. -/
def glm.scale {F : Type} [Zero F] [One F] (v : vec3 F) : mat4 F :=
  mat4.ofRows
    (v.x, 0, 0, 0)
    (0, v.y, 0, 0)
    (0, 0, v.z, 0)
    (0, 0, 0, 1)

/-- The call `glm::translate(v)`: the identity with `v` in its last column. -/
def glm.translate {F : Type} [Zero F] [One F] (v : vec3 F) : mat4 F :=
  mat4.ofRows
    (1, 0, 0, v.x)
    (0, 1, 0, v.y)
    (0, 0, 1, v.z)
    (0, 0, 0, 1)

/-- The call `glm::normalize(v)`, that is `v * inversesqrt(dot(v, v))`. -/
def glm.normalize {F : Type} [Add F] [Mul F] (gm : GlmMath F) (v : vec3 F) : vec3 F :=
  let k := gm.inversesqrt (v.x * v.x + v.y * v.y + v.z * v.z)
  { x := v.x * k, y := v.y * k, z := v.z * k }

/-- The call `glm::rotate(angle, v)`: with `c = cos(angle)`, `s = sin(angle)`,
`axis = normalize(v)` and `temp = (1 - c) * axis`, the rotation block glm
builds, placed in the identity. -/
def glm.rotate {F : Type} [Add F] [Sub F] [Mul F] [Zero F] [One F] (gm : GlmMath F) (angle : F)
    (v : vec3 F) : mat4 F :=
  let c := gm.cos angle
  let s := gm.sin angle
  let axis := glm.normalize gm v
  let temp : vec3 F := { x := (1 - c) * axis.x, y := (1 - c) * axis.y, z := (1 - c) * axis.z }
  mat4.ofRows
    (c + temp.x * axis.x, temp.y * axis.x - s * axis.z, temp.z * axis.x + s * axis.y, 0)
    (temp.x * axis.y + s * axis.z, c + temp.y * axis.y, temp.z * axis.y - s * axis.x, 0)
    (temp.x * axis.z - s * axis.y, temp.y * axis.z + s * axis.x, c + temp.z * axis.z, 0)
    (0, 0, 0, 1)

/-- The first three components of `m * vec4(p, 1)`, summed as glm's
`mat4 * vec4` does: the first two products, the last two products, then the two
sums. -/
def transformPoint {F : Type} [Add F] [Mul F] [One F] (m : mat4 F) (p : vec3 F) : vec3 F :=
  { x := (m 0 0 * p.x + m 0 1 * p.y) + (m 0 2 * p.z + m 0 3 * 1)
    y := (m 1 0 * p.x + m 1 1 * p.y) + (m 1 2 * p.z + m 1 3 * 1)
    z := (m 2 0 * p.x + m 2 1 * p.y) + (m 2 2 * p.z + m 2 3 * 1) }

/-! ### The uniform binder -/

/-- The method `SetTransformations(scaleXYZ, XrotationDegrees, YrotationDegrees,
ZrotationDegrees, positionXYZ)`. -/
def SetTransformations {F : Type} [Add F] [Sub F] [Mul F] [Zero F] [One F] (gm : GlmMath F)
    (s : SceneManager F)
    (scaleXYZ : vec3 F) (XrotationDegrees YrotationDegrees ZrotationDegrees : F)
    (positionXYZ : vec3 F) : SceneManager F :=
  let scale := glm.scale scaleXYZ
  let rotationX := glm.rotate gm (gm.radians XrotationDegrees) { x := 1, y := 0, z := 0 }
  let rotationY := glm.rotate gm (gm.radians YrotationDegrees) { x := 0, y := 1, z := 0 }
  let rotationZ := glm.rotate gm (gm.radians ZrotationDegrees) { x := 0, y := 0, z := 1 }
  let translation := glm.translate positionXYZ
  let modelView :=
    glm.mul (glm.mul (glm.mul (glm.mul translation rotationX) rotationY) rotationZ) scale
  match s.m_pShaderManager with
  | some sh => { s with m_pShaderManager := some (sh.setMat4Value g_ModelName modelView) }
  | none => s

/-- The method `SetShaderColor(redColorValue, greenColorValue, blueColorValue,
alphaValue)`; the `false` passed to `setIntValue` is the `int` 0. -/
def SetShaderColor {F : Type} (s : SceneManager F)
    (redColorValue greenColorValue blueColorValue alphaValue : F) : SceneManager F :=
  let currentColor : vec4 F :=
    { r := redColorValue, g := greenColorValue, b := blueColorValue, a := alphaValue }
  match s.m_pShaderManager with
  | some sh =>
    { s with
      m_pShaderManager :=
        some ((sh.setIntValue g_UseTextureName 0).setVec4Value g_ColorValueName currentColor) }
  | none => s

/-- The method `SetShaderTexture(textureTag)`; the `true` passed to
`setIntValue` is the `int` 1. -/
def SetShaderTexture {F : Type} (s : SceneManager F) (textureTag : String) : SceneManager F :=
  match s.m_pShaderManager with
  | some sh =>
    let sh1 := sh.setIntValue g_UseTextureName 1
    let textureID := FindTextureSlot s textureTag
    { s with m_pShaderManager := some (sh1.setSampler2DValue g_TextureValueName textureID) }
  | none => s

/-- The method `SetTextureUVScale(u, v)`. -/
def SetTextureUVScale {F : Type} (s : SceneManager F) (u v : F) : SceneManager F :=
  match s.m_pShaderManager with
  | some sh => { s with m_pShaderManager := some (sh.setVec2Value "UVscale" { x := u, y := v }) }
  | none => s

/-- The method `SetShaderMaterial(materialTag)`.  `material` is what the local
variable `OBJECT_MATERIAL material;` holds when it is declared.  The setters
are reached through `m_pShaderManager` without a `NULL` test: the result is
`none` when that dereferences the null pointer. -/
def SetShaderMaterial {F : Type} (s : SceneManager F) (materialTag : String)
    (material : OBJECT_MATERIAL F) : Option (SceneManager F) :=
  if s.m_objectMaterials.length > 0 then
    let (bReturn, material) := FindMaterial s materialTag material
    if bReturn = true then
      match s.m_pShaderManager with
      | some sh =>
        let sh1 := sh.setVec3Value "material.ambientColor" material.ambientColor
        let sh2 := sh1.setFloatValue "material.ambientStrength" material.ambientStrength
        let sh3 := sh2.setVec3Value "material.diffuseColor" material.diffuseColor
        let sh4 := sh3.setVec3Value "material.specularColor" material.specularColor
        let sh5 := sh4.setFloatValue "material.shininess" material.shininess
        some { s with m_pShaderManager := some sh5 }
      | none => none
    else some s
  else some s

/-- The call `m_basicMeshes->DrawXMesh()` for the kind `k`; it draws with the
uniforms as they stand and writes none. -/
def DrawMesh {F : Type} (s : SceneManager F) (k : MeshKind) : SceneManager F :=
  { s with m_basicMeshes := s.m_basicMeshes.draw k }

/-- A call a draw step of `RenderScene` may make. -/
inductive SceneCall (F : Type) where
  | setTransformations (scaleXYZ : vec3 F) (xRot yRot zRot : F) (positionXYZ : vec3 F)
  | setShaderColor (r g b a : F)
  | setShaderTexture (textureTag : String)
  | setTextureUVScale (u v : F)
  | setShaderMaterial (materialTag : String) (material : OBJECT_MATERIAL F)
  | drawMesh (k : MeshKind)

/-- Whether the call is `SetShaderTexture`. -/
def SceneCall.isTexture {F : Type} : SceneCall F → Bool
  | .setShaderTexture _ => true
  | _ => false

/-- Effect of one call. -/
def SceneCall.run {F : Type} [Ring F] (gm : GlmMath F) (s : SceneManager F) :
    SceneCall F → Option (SceneManager F)
  | .setTransformations sc x y z p => some (SetTransformations gm s sc x y z p)
  | .setShaderColor r g b a => some (SetShaderColor s r g b a)
  | .setShaderTexture t => some (SetShaderTexture s t)
  | .setTextureUVScale u v => some (SetTextureUVScale s u v)
  | .setShaderMaterial t m => SetShaderMaterial s t m
  | .drawMesh k => some (DrawMesh s k)

/-- Effect of a sequence of calls, in order. -/
def runCalls {F : Type} [Ring F] (gm : GlmMath F) :
    SceneManager F → List (SceneCall F) → Option (SceneManager F)
  | s, [] => some s
  | s, c :: rest =>
    match c.run gm s with
    | some s1 => runCalls gm s1 rest
    | none => none

/-! ### The matrices the specification names -/

/-- Scale(s) of the specification: the diagonal matrix of `s`. -/
def specScale {F : Type} [Ring F] (v : vec3 F) : mat4 F :=
  mat4.ofRows
    (v.x, 0, 0, 0)
    (0, v.y, 0, 0)
    (0, 0, v.z, 0)
    (0, 0, 0, 1)

/-- Translate(t) of the specification: `p` goes to `p + t`. -/
def specTranslate {F : Type} [Ring F] (v : vec3 F) : mat4 F :=
  mat4.ofRows
    (1, 0, 0, v.x)
    (0, 1, 0, v.y)
    (0, 0, 1, v.z)
    (0, 0, 0, 1)

/-- RotateX of the specification, from the cosine and sine of the angle. -/
def specRotateX {F : Type} [Ring F] (c s : F) : mat4 F :=
  mat4.ofRows
    (1, 0, 0, 0)
    (0, c, -s, 0)
    (0, s, c, 0)
    (0, 0, 0, 1)

/-- RotateY of the specification, from the cosine and sine of the angle. -/
def specRotateY {F : Type} [Ring F] (c s : F) : mat4 F :=
  mat4.ofRows
    (c, 0, s, 0)
    (0, 1, 0, 0)
    (-s, 0, c, 0)
    (0, 0, 0, 1)

/-- RotateZ of the specification, from the cosine and sine of the angle. -/
def specRotateZ {F : Type} [Ring F] (c s : F) : mat4 F :=
  mat4.ofRows
    (c, -s, 0, 0)
    (s, c, 0, 0)
    (0, 0, 1, 0)
    (0, 0, 0, 1)

/-! ### Scene set-up and rendering -/

/-- The loop of `DestroyGLTextures`, from index `i` with `remaining` passes to
go: each pass calls `glGenTextures(1, &m_textureIDs[i].ID)`. -/
def DestroyGLTextures.loop :
    Nat → Nat → (Nat → TEXTURE_INFO) × GLContext → (Nat → TEXTURE_INFO) × GLContext
  | 0, _, st => st
  | remaining + 1, i, (ids, gl) =>
    let (name, gl1) := glGenTextures gl
    DestroyGLTextures.loop remaining (i + 1)
      (fun j => if j = i then { tag := (ids i).tag, ID := name } else ids j, gl1)

/-- The method `DestroyGLTextures()`. -/
def DestroyGLTextures {F : Type} (s : SceneManager F) : SceneManager F :=
  let r := DestroyGLTextures.loop s.m_loadedTextures 0 (s.m_textureIDs, s.gl)
  { s with m_textureIDs := r.1, gl := r.2 }

/-- The method `LoadSceneTextures()`: eight loads, then `BindGLTextures()`. -/
def LoadSceneTextures {F : Type} (stbi_load : String → Option Image) (s : SceneManager F) :
    SceneManager F :=
  BindGLTextures (loadSequence stbi_load s
    [("Source/Brick.jpg", "brickTexture"),
     ("Source/Wood.jpg", "woodTexture"),
     ("Source/Granite.jpg", "graniteTexture"),
     ("Source/ceramicMaterial.jpg", "mugTexture"),
     ("Source/monsterTexture.jpg", "monsterTexture"),
     ("Source/blackboxTexture.jpg", "blackboxTexture"),
     ("Source/monsterTop.jpg", "monsterTopTexture"),
     ("Source/orangeTexture.jpg", "orangeTexture")]).2

/-- The method `DefineObjectMaterials()`: six `push_back` calls. -/
def DefineObjectMaterials {F : Type} [Field F] (s : SceneManager F) : SceneManager F :=
  let goldMaterial : OBJECT_MATERIAL F :=
    { ambientColor := { x := 0.2, y := 0.2, z := 0.2 }
      ambientStrength := 0.3
      diffuseColor := { x := 0.2, y := 0.2, z := 0.2 }
      specularColor := { x := 0.5, y := 0.5, z := 0.5 }
      shininess := 22.0
      tag := "metal" }
  let woodMaterial : OBJECT_MATERIAL F :=
    { ambientColor := { x := 0.1, y := 0.1, z := 0.1 }
      ambientStrength := 0.2
      diffuseColor := { x := 0.3, y := 0.3, z := 0.3 }
      specularColor := { x := 0.1, y := 0.1, z := 0.1 }
      shininess := 0.3
      tag := "wood" }
  let graniteMaterial : OBJECT_MATERIAL F :=
    { ambientColor := { x := 0.2, y := 0.2, z := 0.2 }
      ambientStrength := 0.3
      diffuseColor := { x := 0.4, y := 0.4, z := 0.4 }
      specularColor := { x := 0.6, y := 0.6, z := 0.6 }
      shininess := 20.0
      tag := "granite" }
  let ceramicMaterial : OBJECT_MATERIAL F :=
    { ambientColor := { x := 0.25, y := 0.25, z := 0.25 }
      ambientStrength := 0.4
      diffuseColor := { x := 0.8, y := 0.8, z := 0.8 }
      specularColor := { x := 0.9, y := 0.9, z := 0.9 }
      shininess := 50.0
      tag := "ceramicMaterial" }
  let matteMaterial : OBJECT_MATERIAL F :=
    { ambientColor := { x := 0.1, y := 0.1, z := 0.1 }
      ambientStrength := 0.2
      diffuseColor := { x := 0.2, y := 0.2, z := 0.2 }
      specularColor := { x := 0.05, y := 0.05, z := 0.05 }
      shininess := 1.0
      tag := "matteMaterial" }
  let metalCanMaterial : OBJECT_MATERIAL F :=
    { ambientColor := { x := 0.3, y := 0.3, z := 0.3 }
      ambientStrength := 0.3
      diffuseColor := { x := 0.7, y := 0.7, z := 0.7 }
      specularColor := { x := 1.0, y := 1.0, z := 1.0 }
      shininess := 80.0
      tag := "metalCanMaterial" }
  { s with
    m_objectMaterials := s.m_objectMaterials ++
      [goldMaterial, woodMaterial, graniteMaterial, ceramicMaterial, matteMaterial,
        metalCanMaterial] }

/-- The uniform writes of `SetupSceneLights()` on the shader manager. -/
def SetupSceneLights.writes {F : Type} [Field F] (sh : ShaderManager F) : ShaderManager F :=
  let sh := sh.setBoolValue g_UseLightingName true
  -- light source 1
  let sh := sh.setVec3Value "lightSources[0].position" { x := -5.0, y := 5.0, z := 5.0 }
  let sh := sh.setVec3Value "lightSources[0].ambientColor" { x := 0.3, y := 0.3, z := 0.1 }
  let sh := sh.setVec3Value "lightSources[0].diffuseColor" { x := 0.8, y := 0.8, z := 0.4 }
  let sh := sh.setVec3Value "lightSources[0].specularColor" { x := 0.6, y := 0.6, z := 0.3 }
  let sh := sh.setFloatValue "lightSources[0].focalStrength" 40.0
  let sh := sh.setFloatValue "lightSources[0].specularIntensity" 0.7
  -- light source 2
  let sh := sh.setVec3Value "lightSources[1].position" { x := 5.0, y := 5.0, z := 5.0 }
  let sh := sh.setVec3Value "lightSources[1].ambientColor" { x := 0.3, y := 0.3, z := 0.1 }
  let sh := sh.setVec3Value "lightSources[1].diffuseColor" { x := 0.8, y := 0.8, z := 0.4 }
  let sh := sh.setVec3Value "lightSources[1].specularColor" { x := 0.6, y := 0.6, z := 0.3 }
  let sh := sh.setFloatValue "lightSources[1].focalStrength" 40.0
  let sh := sh.setFloatValue "lightSources[1].specularIntensity" 0.7
  -- light source 3
  let sh := sh.setVec3Value "lightSources[2].position" { x := 0.0, y := 10.0, z := 0.0 }
  let sh := sh.setVec3Value "lightSources[2].ambientColor" { x := 0.2, y := 0.2, z := 0.1 }
  let sh := sh.setVec3Value "lightSources[2].diffuseColor" { x := 0.6, y := 0.6, z := 0.4 }
  let sh := sh.setVec3Value "lightSources[2].specularColor" { x := 0.4, y := 0.4, z := 0.3 }
  let sh := sh.setFloatValue "lightSources[2].focalStrength" 20.0
  let sh := sh.setFloatValue "lightSources[2].specularIntensity" 0.5
  -- light source 4
  let sh := sh.setVec3Value "lightSources[3].position" { x := 0.0, y := 5.0, z := -5.0 }
  let sh := sh.setVec3Value "lightSources[3].ambientColor" { x := 0.3, y := 0.3, z := 0.1 }
  let sh := sh.setVec3Value "lightSources[3].diffuseColor" { x := 0.8, y := 0.8, z := 0.4 }
  let sh := sh.setVec3Value "lightSources[3].specularColor" { x := 0.6, y := 0.6, z := 0.3 }
  let sh := sh.setFloatValue "lightSources[3].focalStrength" 40.0
  sh.setFloatValue "lightSources[3].specularIntensity" 0.7

/-- The method `SetupSceneLights()`.  The setters are reached through
`m_pShaderManager` without a `NULL` test: the result is `none` when that
dereferences the null pointer. -/
def SetupSceneLights {F : Type} [Field F] (s : SceneManager F) : Option (SceneManager F) :=
  match s.m_pShaderManager with
  | some sh => some { s with m_pShaderManager := some (SetupSceneLights.writes sh) }
  | none => none

/-- The method `PrepareScene()`: `LoadSceneTextures()`, `SetupSceneLights()`,
then the nine mesh loads. -/
def PrepareScene {F : Type} [Field F] (stbi_load : String → Option Image)
    (s : SceneManager F) : Option (SceneManager F) :=
  match SetupSceneLights (LoadSceneTextures stbi_load s) with
  | some s2 =>
    some { s2 with
      m_basicMeshes :=
        ((((((((s2.m_basicMeshes.load .box).load .plane).load .cylinder).load .cone).load
          .prism).load .pyramid4).load .sphere).load .taperedCylinder).load .torus }
  | none => none

/-- The calls `RenderScene()` makes, in order.  `locals i` is what the local
`material` of the `i`-th `SetShaderMaterial` call holds when it is declared. -/
def RenderScene.calls {F : Type} [Field F] (locals : Nat → OBJECT_MATERIAL F) :
    List (SceneCall F) :=
  [ -- the plane mesh (granite countertop)
    .setTransformations { x := 20.0, y := 1.0, z := 10.0 } 0.0 0.0 0.0
      { x := 0.0, y := 0.0, z := 0.0 },
    .setShaderTexture "graniteTexture",
    .setShaderMaterial "granite" (locals 0),
    .drawMesh .plane,
    -- the black box
    .setTransformations { x := 2.0, y := 0.5, z := 3.0 } 0.0 0.0 0.0
      { x := -8.0, y := 0.5, z := 2.5 },
    .setShaderTexture "blackboxTexture",
    .setShaderMaterial "wood" (locals 1),
    .drawMesh .box,
    -- the crayon body
    .setTransformations { x := 0.7, y := 3.0, z := 0.7 } 0.0 0.0 0.0
      { x := -3.5, y := 0.25, z := -0.5 },
    .setShaderTexture "orangeTexture",
    .setShaderMaterial "wood" (locals 2),
    .drawMesh .cylinder,
    -- the crayon tip
    .setTransformations { x := 0.7, y := 1.0, z := 0.7 } 0.0 0.0 0.0
      { x := -3.5, y := 3.25, z := -0.5 },
    .setShaderTexture "orangeTexture",
    .setShaderMaterial "metal" (locals 3),
    .drawMesh .cone,
    -- the can body
    .setTransformations { x := 0.7, y := 3.0, z := 0.7 } 0.0 0.0 0.0
      { x := 2.0, y := 0.0, z := 0.0 },
    .setShaderTexture "monsterTexture",
    .setShaderMaterial "wood" (locals 4),
    .drawMesh .cylinder,
    -- the top of the can
    .setTransformations { x := 0.7, y := 0.01, z := 0.7 } 0.0 0.0 0.0
      { x := 2.0, y := 3.0, z := 0.0 },
    .setShaderTexture "monsterTopTexture",
    .drawMesh .cylinder,
    -- the mug body
    .setTransformations { x := 1.0, y := 2.0, z := 1.0 } 0.0 0.0 0.0
      { x := 6.5, y := 0.25, z := 2.0 },
    .setShaderTexture "mugTexture",
    .setShaderMaterial "ceramicMaterial" (locals 5),
    .drawMesh .cylinder,
    -- the mug handle
    .setTransformations { x := 0.5, y := 0.5, z := 0.5 } 0.0 0.0 90.0
      { x := 7.5, y := 1.25, z := 2.0 },
    .setShaderTexture "mugTexture",
    .drawMesh .torus,
    -- the last cylinder, in flat colour
    .setTransformations { x := 1.01, y := 0.01, z := 1.01 } 0.0 0.0 0.0
      { x := 6.5, y := 2.25, z := 2.0 },
    .setShaderColor 0.0 0.0 0.0 1.0,
    .drawMesh .cylinder ]

/-- The method `RenderScene()`. -/
def RenderScene {F : Type} [Field F] (gm : GlmMath F) (s : SceneManager F)
    (locals : Nat → OBJECT_MATERIAL F) : Option (SceneManager F) :=
  runCalls gm s (RenderScene.calls locals)

/-- What kind of call a `SceneCall` is. -/
inductive CallKind where
  | transform | color | texture | uvScale | material | draw (k : MeshKind)
deriving DecidableEq, Repr

/-- The kind of a call, its arguments dropped. -/
def SceneCall.kind {F : Type} : SceneCall F → CallKind
  | .setTransformations _ _ _ _ _ => .transform
  | .setShaderColor _ _ _ _ => .color
  | .setShaderTexture _ => .texture
  | .setTextureUVScale _ _ => .uvScale
  | .setShaderMaterial _ _ => .material
  | .drawMesh k => .draw k

/-- The mesh kinds drawn by a sequence of calls, in order. -/
def drawnKinds : List CallKind → List MeshKind
  | [] => []
  | .draw k :: rest => k :: drawnKinds rest
  | _ :: rest => drawnKinds rest

/-- Whether every draw in the sequence has, since the draw before it (or the
start), exactly one transform call and exactly one appearance call (texture or
flat colour); `transforms` and `appearances` count those seen since then. -/
def drawStepsExact : List CallKind → Nat → Nat → Bool
  | [], _, _ => true
  | .draw _ :: rest, transforms, appearances =>
    transforms == 1 && appearances == 1 && drawStepsExact rest 0 0
  | .transform :: rest, transforms, appearances =>
    drawStepsExact rest (transforms + 1) appearances
  | .color :: rest, transforms, appearances =>
    drawStepsExact rest transforms (appearances + 1)
  | .texture :: rest, transforms, appearances =>
    drawStepsExact rest transforms (appearances + 1)
  | _ :: rest, transforms, appearances => drawStepsExact rest transforms appearances

/-! ## Binary floating point

The finite values of IEEE 754 `float` (binary32) and `double` (binary64), with
round-to-nearest-even.  Overflow, infinities, NaN and the sign of zero are
outside the model. -/

/-- Number of binary digits of `n`; the fuel `n` itself is always enough. -/
def bitLength : Nat → Nat → Nat
  | 0, _ => 0
  | fuel + 1, n => if n = 0 then 0 else bitLength fuel (n / 2) + 1

/-- The quotient `num / den` rounded to `prec` significant binary digits, ties
to even.  The result is a multiple of `2 ^ k`, `k` being the number of digits
the quotient has beyond `prec`; a quotient of at most `prec` digits is rounded
to an integer. -/
def roundNearestEven (prec : Nat) (num den : Nat) : Nat :=
  let q0 := num / den
  let k := bitLength q0 q0 - prec
  let d := den <<< k
  let q := num / d
  let r := num % d
  if 2 * r > d ∨ (2 * r = d ∧ q % 2 = 1) then (q + 1) <<< k else q <<< k

/-- The rounding `roundNearestEven` of a signed quotient. -/
def roundSigned (prec : Nat) (num : Int) (den : Nat) : Int :=
  if num < 0 then -((roundNearestEven prec num.natAbs den : Nat) : Int)
  else ((roundNearestEven prec num.natAbs den : Nat) : Int)

/-- A finite `float`: the number `val * 2 ^ (-149)`, of at most 24 significant
binary digits. -/
structure Float32 where
  val : Int
deriving DecidableEq, Repr

/-- A finite `double`: the number `val * 2 ^ (-1074)`, of at most 53 significant
binary digits. -/
structure Double where
  val : Int
deriving DecidableEq, Repr

/-- The `float` nearest to the fraction `n / d`. -/
def Float32.ofRat (n : Int) (d : Nat) : Float32 :=
  ⟨roundSigned 24 (n * ((1 <<< 149 : Nat) : Int)) d⟩

/-- The `double` nearest to the fraction `n / d`. -/
def Double.ofRat (n : Int) (d : Nat) : Double :=
  ⟨roundSigned 53 (n * ((1 <<< 1074 : Nat) : Int)) d⟩

/-- The conversion `(float)d`. -/
def Double.toFloat (d : Double) : Float32 := ⟨roundSigned 24 d.val (1 <<< 925)⟩

/-- The conversion `(double)f`, which is exact. -/
def Float32.toDouble (f : Float32) : Double := ⟨f.val * ((1 <<< 925 : Nat) : Int)⟩

/-- The difference `a - b` of two `double`. -/
def Double.sub (a b : Double) : Double := ⟨roundSigned 53 (a.val - b.val) 1⟩

instance : Zero Float32 := ⟨⟨0⟩⟩
instance : One Float32 := ⟨⟨((1 <<< 149 : Nat) : Int)⟩⟩
instance : Add Float32 := ⟨fun a b => ⟨roundSigned 24 (a.val + b.val) 1⟩⟩
instance : Sub Float32 := ⟨fun a b => ⟨roundSigned 24 (a.val - b.val) 1⟩⟩
instance : Mul Float32 := ⟨fun a b => ⟨roundSigned 24 (a.val * b.val) (1 <<< 149)⟩⟩
instance : Neg Float32 := ⟨fun a => ⟨-a.val⟩⟩

/-- Whether the `double` is the value of some `float`: narrowing it and widening
it again gives it back. -/
def Double.isFloat (d : Double) : Prop := d.toFloat.toDouble = d

instance (d : Double) : Decidable d.isFloat := by
  unfold Double.isFloat
  infer_instance

/-- Whether `a - b` comes out exact: the `double` subtraction returns the true
difference, and that difference is the value of some `float`. -/
def Double.exactDiff (a b : Double) : Prop :=
  Double.sub a b = ⟨a.val - b.val⟩ ∧ Double.isFloat ⟨a.val - b.val⟩

instance (a b : Double) : Decidable (Double.exactDiff a b) := by
  unfold Double.exactDiff
  infer_instance

/-- Where a `double` meets a `float` in an expression: the conversions between
the two and the subtraction of `double`. -/
structure Narrowing (D F : Type) where
  toFloat : D → F
  toDouble : F → D
  sub : D → D → D

/-- The conversions and the subtraction of IEEE 754. -/
def ieee : Narrowing Double Float32 :=
  { toFloat := Double.toFloat
    toDouble := Float32.toDouble
    sub := Double.sub }

/-! ## The view manager -/

def WINDOW_WIDTH : Int := 1000
def WINDOW_HEIGHT : Int := 800
def g_ViewName : String := "view"
def g_ProjectionName : String := "projection"

/-! Constants of the GLFW header. -/

def GLFW_RELEASE : Int := 0
def GLFW_PRESS : Int := 1
def GLFW_REPEAT : Int := 2
def GLFW_KEY_A : Int := 65
def GLFW_KEY_D : Int := 68
def GLFW_KEY_E : Int := 69
def GLFW_KEY_O : Int := 79
def GLFW_KEY_P : Int := 80
def GLFW_KEY_Q : Int := 81
def GLFW_KEY_S : Int := 83
def GLFW_KEY_W : Int := 87
def GLFW_KEY_ESCAPE : Int := 256

/-- The directions `ProcessKeyboard` takes. -/
inductive Camera_Movement where
  | FORWARD | BACKWARD | LEFT | RIGHT | UP | DOWN
deriving DecidableEq, Repr

/-- A call made on the camera, with its arguments. -/
inductive CameraCall (F : Type) where
  | ProcessMouseMovement (xoffset yoffset : F)
  | ProcessMouseScroll (yoffset : F)
  | ProcessKeyboard (direction : Camera_Movement) (deltaTime : F)
deriving DecidableEq, Repr

/-- Modelled from the spec: the camera (`Camera`, whose source is not part of
the two files), which the view manager drives through orientation, zoom and
movement updates.  The state records the calls received, oldest first. -/
structure Camera (F : Type) where
  calls : List (CameraCall F)
deriving DecidableEq, Repr

/-- The call `ProcessMouseMovement(xoffset, yoffset)`. -/
def Camera.ProcessMouseMovement {F : Type} (c : Camera F) (xoffset yoffset : F) : Camera F :=
  { calls := c.calls ++ [.ProcessMouseMovement xoffset yoffset] }

/-- The call `ProcessMouseScroll(yoffset)`. -/
def Camera.ProcessMouseScroll {F : Type} (c : Camera F) (yoffset : F) : Camera F :=
  { calls := c.calls ++ [.ProcessMouseScroll yoffset] }

/-- The call `ProcessKeyboard(direction, deltaTime)`. -/
def Camera.ProcessKeyboard {F : Type} (c : Camera F) (direction : Camera_Movement)
    (deltaTime : F) : Camera F :=
  { calls := c.calls ++ [.ProcessKeyboard direction deltaTime] }

/-- What the view manager reads from the camera and takes from glm to build its
matrices: `GetViewMatrix()`, `Zoom` and `Position` as functions of the camera,
and the calls `glm::ortho(left, right, bottom, top, zNear, zFar)` and
`glm::perspective(fovy, aspect, zNear, zFar)`. -/
structure ViewMath (F : Type) where
  GetViewMatrix : Camera F → mat4 F
  Zoom : Camera F → F
  Position : Camera F → vec3 F
  ortho : F → F → F → F → F → F → mat4 F
  perspective : F → F → F → F → mat4 F

/-- State of the view manager: its members and the file-level variables it
works on, `F` being `float`.  `keys i` for `0 ≤ i < 1024` is element `i` of
the array; for any other `i` it stands for the storage around the array, which
the array does not own: a store there is a write out of bounds, and what it
overwrites in the program is not modelled.  `windowShouldClose` is the flag set
by `glfwSetWindowShouldClose`.  The camera `g_pCamera` points to is the one the
constructor allocates.  The `double` arguments of the mouse callbacks have a
type of their own and reach the `float` variables through a `Narrowing`.  The
variables no function of the file reads (`gLastX`, `gLastY`, `gFirstMouse`,
`m_camera`, `orthographicView`) are left out. -/
structure ViewManager (F : Type) where
  m_pShaderManager : Option (ShaderManager F)
  windowShouldClose : Bool
  keys : Int → Bool
  lastX : F
  lastY : F
  firstMouse : Bool
  g_pCamera : Camera F
  gDeltaTime : F
  gLastFrame : F
  bOrthographicProjection : Bool

/-- The constructor `ViewManager(pShaderManager)` together with the static
initialisers of the file. -/
def ViewManager.new {F : Type} [Field F] (pShaderManager : Option (ShaderManager F)) :
    ViewManager F :=
  { m_pShaderManager := pShaderManager
    windowShouldClose := false
    keys := fun _ => false
    lastX := (WINDOW_WIDTH : F) / 2.0
    lastY := (WINDOW_HEIGHT : F) / 2.0
    firstMouse := true
    g_pCamera := { calls := [] }
    gDeltaTime := 0.0
    gLastFrame := 0.0
    bOrthographicProjection := false }

/-- The callback `Mouse_Position_Callback(window, xMousePos, yMousePos)`.  The
arguments are `double`; `lastX`, `lastY`, `xoffset` and `yoffset` are `float`:
each assignment narrows, and the two differences are taken in `double`. -/
def Mouse_Position_Callback {D F : Type} (nw : Narrowing D F) (v : ViewManager F)
    (xMousePos yMousePos : D) : ViewManager F :=
  let v1 : ViewManager F :=
    if v.firstMouse then
      { v with lastX := nw.toFloat xMousePos, lastY := nw.toFloat yMousePos, firstMouse := false }
    else v
  let xoffset : F := nw.toFloat (nw.sub xMousePos (nw.toDouble v1.lastX))
  let yoffset : F := nw.toFloat (nw.sub (nw.toDouble v1.lastY) yMousePos)
  { v1 with
    lastX := nw.toFloat xMousePos
    lastY := nw.toFloat yMousePos
    g_pCamera := v1.g_pCamera.ProcessMouseMovement xoffset yoffset }

/-- The callback `Mouse_Scroll_Callback(window, xoffset, yoffset)`; the `double`
`yoffset` is narrowed to the `float` the camera takes. -/
def Mouse_Scroll_Callback {D F : Type} (nw : Narrowing D F) (v : ViewManager F)
    (_xoffset yoffset : D) : ViewManager F :=
  { v with g_pCamera := v.g_pCamera.ProcessMouseScroll (nw.toFloat yoffset) }

/-- The callback `Key_Callback(window, key, scancode, action, mods)`.  The stores
to `keys[key]` are unchecked: for a `key` outside `0 .. 1023` they fall outside
the array (see `ViewManager`), and the result describes the program only as far
as that store. -/
def Key_Callback {F : Type} (v : ViewManager F) (key _scancode action _mods : Int) :
    ViewManager F :=
  let v1 : ViewManager F :=
    if action = GLFW_PRESS then { v with keys := fun k => if k = key then true else v.keys k }
    else if action = GLFW_RELEASE then
      { v with keys := fun k => if k = key then false else v.keys k }
    else v
  if action = GLFW_PRESS then
    if key = GLFW_KEY_P then { v1 with bOrthographicProjection := false }
    else if key = GLFW_KEY_O then { v1 with bOrthographicProjection := true }
    else v1
  else v1

/-- The method `ProcessKeyboardEvents(deltaTime)`. -/
def ProcessKeyboardEvents {F : Type} (v : ViewManager F) (deltaTime : F) : ViewManager F :=
  let v := if v.keys GLFW_KEY_ESCAPE then { v with windowShouldClose := true } else v
  let c := v.g_pCamera
  let c := if v.keys GLFW_KEY_W then c.ProcessKeyboard .FORWARD deltaTime else c
  let c := if v.keys GLFW_KEY_S then c.ProcessKeyboard .BACKWARD deltaTime else c
  let c := if v.keys GLFW_KEY_A then c.ProcessKeyboard .LEFT deltaTime else c
  let c := if v.keys GLFW_KEY_D then c.ProcessKeyboard .RIGHT deltaTime else c
  let c := if v.keys GLFW_KEY_Q then c.ProcessKeyboard .UP deltaTime else c
  let c := if v.keys GLFW_KEY_E then c.ProcessKeyboard .DOWN deltaTime else c
  { v with g_pCamera := c }

/-- The projection matrix `PrepareSceneView()` computes for the mode flag and the
camera. -/
def PrepareSceneView.projection {F : Type} [Field F] (gm : GlmMath F) (vm : ViewMath F)
    (bOrthographicProjection : Bool) (camera : Camera F) : mat4 F :=
  if bOrthographicProjection then
    let aspect : F := (WINDOW_WIDTH : F) / (WINDOW_HEIGHT : F)
    let orthoHeight : F := 10.0
    vm.ortho (-aspect * orthoHeight) (aspect * orthoHeight) (-orthoHeight) orthoHeight 0.1 100.0
  else
    vm.perspective (gm.radians (vm.Zoom camera)) ((WINDOW_WIDTH : F) / (WINDOW_HEIGHT : F))
      0.1 100.0

/-- The method `PrepareSceneView()`; `glfwGetTime` is what the clock returns in
this call, as the `float` `currentFrame` holds it. -/
def PrepareSceneView {F : Type} [Field F] (gm : GlmMath F) (vm : ViewMath F)
    (v : ViewManager F) (glfwGetTime : F) : ViewManager F :=
  let currentFrame := glfwGetTime
  let v1 : ViewManager F :=
    { v with gDeltaTime := currentFrame - v.gLastFrame, gLastFrame := currentFrame }
  let v2 := ProcessKeyboardEvents v1 v1.gDeltaTime
  let view := vm.GetViewMatrix v2.g_pCamera
  let projection := PrepareSceneView.projection gm vm v2.bOrthographicProjection v2.g_pCamera
  match v2.m_pShaderManager with
  | some sh =>
    { v2 with
      m_pShaderManager := some
        (((sh.setMat4Value g_ViewName view).setMat4Value g_ProjectionName projection).setVec3Value
          "viewPosition" (vm.Position v2.g_pCamera)) }
  | none => v2

/-- A key event: the arguments `Key_Callback` receives. -/
structure KeyEvent where
  key : Int
  scancode : Int
  action : Int
  mods : Int
deriving DecidableEq, Repr

/-- The state after the key events, delivered in order. -/
def deliverKeys {F : Type} (v : ViewManager F) (events : List KeyEvent) : ViewManager F :=
  events.foldl (fun w e => Key_Callback w e.key e.scancode e.action e.mods) v

/-- The state after the mouse samples `(x, y)`, delivered in order. -/
def deliverMouse {D F : Type} (nw : Narrowing D F) (v : ViewManager F)
    (samples : List (D × D)) : ViewManager F :=
  samples.foldl (fun w p => Mouse_Position_Callback nw w p.1 p.2) v

/-- The offsets of the `ProcessMouseMovement` calls in a call record, in order. -/
def mouseOffsets {F : Type} : List (CameraCall F) → List (F × F)
  | [] => []
  | .ProcessMouseMovement dx dy :: rest => (dx, dy) :: mouseOffsets rest
  | _ :: rest => mouseOffsets rest

/-- Whether the event is a press of the key O or of the key P. -/
def KeyEvent.isProjectionPress (e : KeyEvent) : Bool :=
  e.action == GLFW_PRESS && (e.key == GLFW_KEY_O || e.key == GLFW_KEY_P)

/-- The mode the specification describes: orthographic when the most recent
press among the keys O and P was O, and the mode `before` when there was none. -/
def orthographicSelected (before : Bool) (events : List KeyEvent) : Bool :=
  match events.reverse.find? KeyEvent.isProjectionPress with
  | some e => e.key == GLFW_KEY_O
  | none => before

/-- The key code GLFW reports for a key it does not know. -/
def GLFW_KEY_UNKNOWN : Int := -1

/-- The index `Key_Callback` stores to in `keys`, if it stores at all: a press
and a release store, any other action does not. -/
def Key_Callback.storeIndex (key action : Int) : Option Int :=
  if action = GLFW_PRESS ∨ action = GLFW_RELEASE then some key else none

/-- Whether the index lies inside `keys[1024]`. -/
def keysInBounds (i : Int) : Prop := 0 ≤ i ∧ i < 1024

instance (i : Int) : Decidable (keysInBounds i) := by
  unfold keysInBounds
  infer_instance

/-- The exact values of the horizontal offsets, in units of `2 ^ (-1074)`. -/
def offsetValuesX (offsets : List (Float32 × Float32)) : List Int :=
  offsets.map (fun o => o.1.toDouble.val)

/-- The exact values of the vertical offsets, in units of `2 ^ (-1074)`. -/
def offsetValuesY (offsets : List (Float32 × Float32)) : List Int :=
  offsets.map (fun o => o.2.toDouble.val)

/-- Samples whose coordinates are values of `float` and whose differences from
the position stored before them come out exact. -/
def exactSamples : Float32 → Float32 → List (Double × Double) → Prop
  | _, _, [] => True
  | lastX, lastY, p :: rest =>
    p.1.isFloat ∧ p.2.isFloat ∧
    Double.exactDiff p.1 lastX.toDouble ∧ Double.exactDiff lastY.toDouble p.2 ∧
    exactSamples p.1.toFloat p.2.toFloat rest

/-! ## Concrete inputs -/

/-- A decoder: one unreadable file, one grayscale file, one RGBA file, and RGB
for every other name. -/
def exampleDecoder : String → Option Image := fun filename =>
  if filename = "missing.jpg" then none
  else if filename = "gray.jpg" then some { width := 8, height := 8, colorChannels := 1 }
  else if filename = "rgba.png" then some { width := 8, height := 8, colorChannels := 4 }
  else some { width := 8, height := 8, colorChannels := 3 }

/-- Content of the storage around the texture array before construction. -/
def exampleStorage : Nat → TEXTURE_INFO := fun _ => { tag := "", ID := 0 }

/-- A GL context in which no texture name has been generated yet. -/
def exampleGL : GLContext := { generated := 0, activeUnit := 0, bound := [] }

/-- A freshly constructed scene manager without a shader manager. -/
def exampleScene : SceneManager ℚ := SceneManager.new none exampleStorage exampleGL

/-- A freshly constructed scene manager with a shader manager attached. -/
def exampleShadedScene : SceneManager ℚ :=
  SceneManager.new (some { uniforms := [] }) exampleStorage exampleGL

/-- Four loads, the second and third of which fail. -/
def exampleCalls : List (String × String) :=
  [("brick.jpg", "brickTexture"), ("missing.jpg", "lostTexture"),
   ("gray.jpg", "grayTexture"), ("rgba.png", "woodTexture")]

/-- Sixteen loads of RGB images with distinct tags. -/
def sixteenCalls : List (String × String) :=
  [("t.jpg", "t0"), ("t.jpg", "t1"), ("t.jpg", "t2"), ("t.jpg", "t3"),
   ("t.jpg", "t4"), ("t.jpg", "t5"), ("t.jpg", "t6"), ("t.jpg", "t7"),
   ("t.jpg", "t8"), ("t.jpg", "t9"), ("t.jpg", "t10"), ("t.jpg", "t11"),
   ("t.jpg", "t12"), ("t.jpg", "t13"), ("t.jpg", "t14"), ("t.jpg", "t15")]

/-- The registry after sixteen successful loads. -/
def sixteenLoaded : SceneManager ℚ := (loadSequence exampleDecoder exampleScene sixteenCalls).2

/-- Some content for the local `material` of `SetShaderMaterial` before it is
set. -/
def blankMaterial : OBJECT_MATERIAL ℚ :=
  { ambientColor := { x := 9, y := 9, z := 9 }
    ambientStrength := 9
    diffuseColor := { x := 9, y := 9, z := 9 }
    specularColor := { x := 9, y := 9, z := 9 }
    shininess := 9
    tag := "" }

/-- A material tagged `wood`. -/
def woodMaterial : OBJECT_MATERIAL ℚ :=
  { ambientColor := { x := 1, y := 0, z := 0 }
    ambientStrength := 0
    diffuseColor := { x := 1, y := 0, z := 0 }
    specularColor := { x := 0, y := 0, z := 0 }
    shininess := 3
    tag := "wood" }

/-- A material tagged `metal`. -/
def goldMaterial : OBJECT_MATERIAL ℚ :=
  { ambientColor := { x := 1, y := 1, z := 0 }
    ambientStrength := 1
    diffuseColor := { x := 1, y := 1, z := 1 }
    specularColor := { x := 1, y := 1, z := 1 }
    shininess := 22
    tag := "metal" }

/-- A second material that reuses the tag `wood`. -/
def darkWoodMaterial : OBJECT_MATERIAL ℚ :=
  { ambientColor := { x := 0, y := 0, z := 0 }
    ambientStrength := 1
    diffuseColor := { x := 0, y := 1, z := 0 }
    specularColor := { x := 0, y := 0, z := 1 }
    shininess := 1
    tag := "wood" }

/-- A scene manager with a shader attached and three materials defined, two of
which share the tag `wood`. -/
def materialScene : SceneManager ℚ :=
  { exampleShadedScene with m_objectMaterials := [goldMaterial, woodMaterial, darkWoodMaterial] }

/-- Scalar functions that are exact at the angles 0 and 90 degrees; angles stay
in degrees and the inverse square root is exact at 1. -/
def exampleMath : GlmMath ℚ :=
  { radians := fun d => d
    cos := fun a => if a = 0 then 1 else 0
    sin := fun a => if a = 90 then 1 else 0
    inversesqrt := fun _ => 1 }

/-- The registry after two successful loads. -/
def twoLoaded : SceneManager ℚ :=
  (loadSequence exampleDecoder exampleScene [("a.jpg", "a"), ("b.jpg", "b")]).2

/-- Content for the locals of the `SetShaderMaterial` calls of `RenderScene`. -/
def exampleLocals : Nat → OBJECT_MATERIAL ℚ := fun _ => blankMaterial

/-- Some camera readings and projection matrices, told apart by one entry. -/
def exampleViewMath : ViewMath ℚ :=
  { GetViewMatrix := fun _ => fun _ _ => 0
    Zoom := fun _ => 45
    Position := fun _ => { x := 0, y := 5, z := 12 }
    ortho := fun _ _ _ _ _ _ => fun _ _ => 1
    perspective := fun _ _ _ _ => fun _ _ => 2 }

/-- A freshly constructed view manager with a shader manager attached. -/
def exampleView : ViewManager ℚ := ViewManager.new (some { uniforms := [] })

/-- A press of O, then a release and a repeat of P, then a press of W. -/
def exampleKeys : List KeyEvent :=
  [{ key := 79, scancode := 0, action := 1, mods := 0 },
   { key := 80, scancode := 0, action := 0, mods := 0 },
   { key := 80, scancode := 0, action := 2, mods := 0 },
   { key := 87, scancode := 0, action := 1, mods := 0 }]

/-- The scene manager after `PrepareScene()` on a fresh one with a shader
manager attached. -/
def preparedScene : SceneManager ℚ :=
  (PrepareScene exampleDecoder exampleShadedScene).getD exampleShadedScene

/-- A freshly constructed view manager over IEEE `float`, with a shader
manager attached: the state `ViewManager.new` describes. -/
def ieeeView : ViewManager Float32 :=
  { m_pShaderManager := some { uniforms := [] }
    windowShouldClose := false
    keys := fun _ => false
    lastX := Float32.ofRat 500 1
    lastY := Float32.ofRat 400 1
    firstMouse := true
    g_pCamera := { calls := [] }
    gDeltaTime := 0
    gLastFrame := 0
    bOrthographicProjection := false }

/-- A freshly constructed scene manager over IEEE `float`, with a shader
manager attached. -/
def ieeeScene : SceneManager Float32 :=
  SceneManager.new (some { uniforms := [] }) exampleStorage exampleGL

/-- The `float` nearest to the constant `glm::radians` multiplies by. -/
def degreesToRadians : Float32 :=
  (Double.ofRat 1745329251994329576923690768489 100000000000000000000000000000000).toFloat

/-- The `float` `radians(90.0f)`, 1.5707964. -/
def halfPi : Float32 := Float32.ofRat 90 1 * degreesToRadians

/-- The `float` `cosf` returns at `halfPi`, -4.371139e-08. -/
def cosHalfPi : Float32 := Float32.ofRat (-6151831) 140737488355328

/-- The scalar functions over IEEE `float`: `glm::radians` as it is defined,
and `cosf`, `sinf` and `inversesqrt` by the values they return at the
arguments used (0 and `halfPi`; 1), 0 standing in elsewhere. -/
def ieeeMath : GlmMath Float32 :=
  { radians := fun d => d * degreesToRadians
    cos := fun a => if a = 0 then 1 else if a = halfPi then cosHalfPi else 0
    sin := fun a => if a = 0 then 0 else if a = halfPi then 1 else 0
    inversesqrt := fun x => if x = 1 then 1 else 0 }

/-! ## Lemmas on the texture registry -/

theorem FindTextureSlot_loop_miss (ids : Nat → TEXTURE_INFO) (tag : String) :
    ∀ (remaining index : Nat) (d : Int),
      (∀ j, j < remaining → (ids (index + j)).tag ≠ tag) →
      FindTextureSlot.loop ids tag remaining index d = d := by
  intro remaining
  induction remaining with
  | zero => intro index d _; rfl
  | succ n ih =>
    intro index d h
    have h0 : (ids index).tag ≠ tag := by simpa using h 0 (Nat.succ_pos n)
    rw [FindTextureSlot.loop, if_neg h0]
    apply ih
    intro j hj
    have := h (j + 1) (Nat.succ_lt_succ hj)
    rwa [show index + (j + 1) = index + 1 + j by omega] at this

theorem FindTextureID_loop_miss (ids : Nat → TEXTURE_INFO) (tag : String) :
    ∀ (remaining index : Nat) (d : Int),
      (∀ j, j < remaining → (ids (index + j)).tag ≠ tag) →
      FindTextureID.loop ids tag remaining index d = d := by
  intro remaining
  induction remaining with
  | zero => intro index d _; rfl
  | succ n ih =>
    intro index d h
    have h0 : (ids index).tag ≠ tag := by simpa using h 0 (Nat.succ_pos n)
    rw [FindTextureID.loop, if_neg h0]
    apply ih
    intro j hj
    have := h (j + 1) (Nat.succ_lt_succ hj)
    rwa [show index + (j + 1) = index + 1 + j by omega] at this

theorem FindTextureSlot_loop_hit (ids : Nat → TEXTURE_INFO) (tag : String) :
    ∀ (remaining index k : Nat) (d : Int), k < remaining →
      (ids (index + k)).tag = tag →
      (∀ j, j < k → (ids (index + j)).tag ≠ tag) →
      FindTextureSlot.loop ids tag remaining index d = ((index + k : Nat) : Int) := by
  intro remaining
  induction remaining with
  | zero => intro index k d hk; omega
  | succ n ih =>
    intro index k d hk hit miss
    cases k with
    | zero =>
      have h0 : (ids index).tag = tag := by simpa using hit
      rw [FindTextureSlot.loop, if_pos h0]; simp
    | succ k =>
      have h0 : (ids index).tag ≠ tag := by simpa using miss 0 (Nat.succ_pos k)
      rw [FindTextureSlot.loop, if_neg h0]
      rw [ih (index + 1) k d (by omega)
        (by rwa [show index + 1 + k = index + (k + 1) by omega])
        (by
          intro j hj
          have := miss (j + 1) (Nat.succ_lt_succ hj)
          rwa [show index + (j + 1) = index + 1 + j by omega] at this)]
      congr 1; omega

/-- The slot search reads only the counter and the tags. -/
theorem FindTextureSlot_loop_congr (ids ids2 : Nat → TEXTURE_INFO) (tag : String)
    (h : ∀ i, (ids i).tag = (ids2 i).tag) :
    ∀ (remaining index : Nat) (d : Int),
      FindTextureSlot.loop ids tag remaining index d
        = FindTextureSlot.loop ids2 tag remaining index d := by
  intro remaining
  induction remaining with
  | zero => intro index d; rfl
  | succ n ih =>
    intro index d
    rw [FindTextureSlot.loop, FindTextureSlot.loop, h index, ih]

/-- A call of `CreateGLTexture` that returns `true` stores the new entry at index
`m_loadedTextures` and increments the counter. -/
theorem CreateGLTexture_true {F : Type} (stbi_load : String → Option Image)
    (s : SceneManager F) (filename tag : String)
    (h : (CreateGLTexture stbi_load s filename tag).1 = true) :
    (CreateGLTexture stbi_load s filename tag).2.m_loadedTextures = s.m_loadedTextures + 1 ∧
    ((CreateGLTexture stbi_load s filename tag).2.m_textureIDs s.m_loadedTextures).tag = tag ∧
    ∀ i, i ≠ s.m_loadedTextures →
      (CreateGLTexture stbi_load s filename tag).2.m_textureIDs i = s.m_textureIDs i := by
  unfold CreateGLTexture at h ⊢
  cases hd : stbi_load filename with
  | none => simp [hd] at h
  | some image =>
    by_cases hc : image.colorChannels = 3 ∨ image.colorChannels = 4
    · refine ⟨?_, ?_, ?_⟩
      · simp [glGenTextures, hc]
      · simp [glGenTextures, hc]
      · intro i hi
        simp [glGenTextures, hc, hi]
    · simp [hd, glGenTextures, hc] at h

/-- A call of `CreateGLTexture` that returns `false` leaves the registry alone. -/
theorem CreateGLTexture_false {F : Type} (stbi_load : String → Option Image)
    (s : SceneManager F) (filename tag : String)
    (h : (CreateGLTexture stbi_load s filename tag).1 = false) :
    (CreateGLTexture stbi_load s filename tag).2.m_loadedTextures = s.m_loadedTextures ∧
    (CreateGLTexture stbi_load s filename tag).2.m_textureIDs = s.m_textureIDs := by
  unfold CreateGLTexture at h ⊢
  cases hd : stbi_load filename with
  | none => simp
  | some image =>
    by_cases hc : image.colorChannels = 3 ∨ image.colorChannels = 4
    · simp [hd, glGenTextures, hc] at h
    · simp [hd, glGenTextures, hc]

/-- What a sequence of loads does to the registry: the tags of the loads that
returned `true` occupy, in order, the slots from the old counter on. -/
theorem loadSequence_registry {F : Type} (stbi_load : String → Option Image) :
    ∀ (calls : List (String × String)) (s : SceneManager F),
      (loadSequence stbi_load s calls).2.m_loadedTextures
        = s.m_loadedTextures + (loadedTags calls (loadSequence stbi_load s calls).1).length ∧
      (∀ i, i < s.m_loadedTextures →
        (loadSequence stbi_load s calls).2.m_textureIDs i = s.m_textureIDs i) ∧
      (∀ j t, (loadedTags calls (loadSequence stbi_load s calls).1)[j]? = some t →
        ((loadSequence stbi_load s calls).2.m_textureIDs (s.m_loadedTextures + j)).tag = t) := by
  intro calls
  induction calls with
  | nil => intro s; simp [loadSequence, loadedTags]
  | cons c rest ih =>
    intro s
    obtain ⟨filename, tag⟩ := c
    obtain ⟨ihn, ihkeep, ihtag⟩ := ih (CreateGLTexture stbi_load s filename tag).2
    cases hr : (CreateGLTexture stbi_load s filename tag).1 with
    | true =>
      obtain ⟨hn, hnew, hkeep⟩ := CreateGLTexture_true stbi_load s filename tag hr
      simp only [loadSequence, hr, loadedTags, List.length_cons]
      refine ⟨by rw [ihn, hn]; omega, ?_, ?_⟩
      · intro i hi
        rw [ihkeep i (by omega), hkeep i (by omega)]
      · intro j t hj
        cases j with
        | zero =>
          simp at hj
          rw [Nat.add_zero, ihkeep _ (by omega), hnew, hj]
        | succ j =>
          simp at hj
          have := ihtag j t hj
          rwa [hn, show s.m_loadedTextures + 1 + j = s.m_loadedTextures + (j + 1) by omega]
            at this
    | false =>
      obtain ⟨hn, hids⟩ := CreateGLTexture_false stbi_load s filename tag hr
      simp only [loadSequence, hr, loadedTags]
      refine ⟨by rw [ihn, hn], ?_, ?_⟩
      · intro i hi
        rw [ihkeep i (by omega), hids]
      · intro j t hj
        have := ihtag j t hj
        rwa [hn] at this

/-- The return value of `CreateGLTexture` and the registry tags it leaves depend
on the state only through the counter and the tags held. -/
theorem CreateGLTexture_congr {F : Type} (stbi_load : String → Option Image)
    (s1 s2 : SceneManager F) (filename tag : String)
    (hn : s1.m_loadedTextures = s2.m_loadedTextures)
    (ht : ∀ i, (s1.m_textureIDs i).tag = (s2.m_textureIDs i).tag) :
    (CreateGLTexture stbi_load s1 filename tag).1 = (CreateGLTexture stbi_load s2 filename tag).1 ∧
    (CreateGLTexture stbi_load s1 filename tag).2.m_loadedTextures
      = (CreateGLTexture stbi_load s2 filename tag).2.m_loadedTextures ∧
    ∀ i, ((CreateGLTexture stbi_load s1 filename tag).2.m_textureIDs i).tag
      = ((CreateGLTexture stbi_load s2 filename tag).2.m_textureIDs i).tag := by
  unfold CreateGLTexture
  cases hd : stbi_load filename with
  | none => exact ⟨rfl, hn, ht⟩
  | some image =>
    by_cases hc : image.colorChannels = 3 ∨ image.colorChannels = 4
    · refine ⟨?_, ?_, ?_⟩
      · simp [glGenTextures, hc]
      · simp [glGenTextures, hc, hn]
      · intro i
        by_cases hi : i = s2.m_loadedTextures
        · simp [glGenTextures, hc, hn, hi]
        · simp [glGenTextures, hc, hn, hi, ht i]
    · refine ⟨?_, ?_, ?_⟩
      · simp [glGenTextures, hc]
      · simp [glGenTextures, hc, hn]
      · intro i
        simp [glGenTextures, hc, ht i]

theorem loadSequence_congr {F : Type} (stbi_load : String → Option Image) :
    ∀ (calls : List (String × String)) (s1 s2 : SceneManager F),
      s1.m_loadedTextures = s2.m_loadedTextures →
      (∀ i, (s1.m_textureIDs i).tag = (s2.m_textureIDs i).tag) →
      (loadSequence stbi_load s1 calls).1 = (loadSequence stbi_load s2 calls).1 ∧
      (loadSequence stbi_load s1 calls).2.m_loadedTextures
        = (loadSequence stbi_load s2 calls).2.m_loadedTextures ∧
      ∀ i, ((loadSequence stbi_load s1 calls).2.m_textureIDs i).tag
        = ((loadSequence stbi_load s2 calls).2.m_textureIDs i).tag := by
  intro calls
  induction calls with
  | nil => intro s1 s2 hn ht; exact ⟨rfl, hn, ht⟩
  | cons c rest ih =>
    intro s1 s2 hn ht
    obtain ⟨filename, tag⟩ := c
    obtain ⟨h1, h2, h3⟩ := CreateGLTexture_congr stbi_load s1 s2 filename tag hn ht
    obtain ⟨i1, i2, i3⟩ := ih _ _ h2 h3
    simp only [loadSequence]
    exact ⟨by rw [h1, i1], i2, i3⟩

/-! ## The claims -/

/-- C1: starting from the registry the constructor leaves, after any sequence of
`CreateGLTexture` calls of which at most 16 return `true`, with pairwise
distinct tags among those, `FindTextureSlot` returns for the `k`-th tag loaded
with success (counted from 0, failed loads not counted) exactly `k`, before and
after `BindGLTextures`, and `k` lies in `[0, 16)`. -/
theorem FindTextureSlot_load_order {F : Type} (stbi_load : String → Option Image)
    (pShaderManager : Option (ShaderManager F)) (storage : Nat → TEXTURE_INFO)
    (gl : GLContext) (calls : List (String × String))
    (hcap : (loadedTags calls
      (loadSequence stbi_load (SceneManager.new pShaderManager storage gl) calls).1).length ≤ 16)
    (hdistinct : (loadedTags calls
      (loadSequence stbi_load (SceneManager.new pShaderManager storage gl) calls).1).Nodup)
    (k : Nat) (tag : String)
    (hk : (loadedTags calls
      (loadSequence stbi_load (SceneManager.new pShaderManager storage gl) calls).1)[k]?
        = some tag) :
    FindTextureSlot
        (loadSequence stbi_load (SceneManager.new pShaderManager storage gl) calls).2 tag
      = (k : Int) ∧
    FindTextureSlot (BindGLTextures
        (loadSequence stbi_load (SceneManager.new pShaderManager storage gl) calls).2) tag
      = (k : Int) ∧
    (0 : Int) ≤ (k : Int) ∧ (k : Int) < 16 := by
  obtain ⟨hn, -, htag⟩ :=
    loadSequence_registry stbi_load calls (SceneManager.new pShaderManager storage gl)
  have h0 : (SceneManager.new pShaderManager storage gl).m_loadedTextures = 0 := rfl
  rw [h0, Nat.zero_add] at hn
  simp only [h0, Nat.zero_add] at htag
  have hklt : k < (loadedTags calls
      (loadSequence stbi_load (SceneManager.new pShaderManager storage gl) calls).1).length := by
    obtain ⟨h, -⟩ := List.getElem?_eq_some_iff.mp hk
    exact h
  have hfind : FindTextureSlot
      (loadSequence stbi_load (SceneManager.new pShaderManager storage gl) calls).2 tag
        = (k : Int) := by
    unfold FindTextureSlot
    have := FindTextureSlot_loop_hit
      (loadSequence stbi_load (SceneManager.new pShaderManager storage gl) calls).2.m_textureIDs
      tag
      (loadSequence stbi_load (SceneManager.new pShaderManager storage gl) calls).2.m_loadedTextures
      0 k (-1)
      (by rw [hn]; exact hklt)
      (by rw [Nat.zero_add]; exact htag k tag hk)
      (by
        intro j hj heq
        have hjlt : j < (loadedTags calls
            (loadSequence stbi_load (SceneManager.new pShaderManager storage gl) calls).1).length :=
          by omega
        have hj2 := htag j _ (List.getElem?_eq_getElem hjlt)
        have hne := (List.nodup_iff_getElem?_ne_getElem?.mp hdistinct) j k hj hklt
        apply hne
        rw [hk, List.getElem?_eq_getElem hjlt]
        congr 1
        rw [← hj2, ← heq, Nat.zero_add])
    simpa using this
  refine ⟨hfind, hfind, by omega, by omega⟩

theorem FindTextureSlot_load_order_witness :
    FindTextureSlot (loadSequence exampleDecoder exampleScene exampleCalls).2 "woodTexture" = 1 ∧
    FindTextureSlot (BindGLTextures (loadSequence exampleDecoder exampleScene exampleCalls).2)
      "woodTexture" = 1 ∧
    (0 : Int) ≤ 1 ∧ (1 : Int) < 16 :=
  FindTextureSlot_load_order exampleDecoder none exampleStorage exampleGL exampleCalls
    (by decide) (by decide) 1 "woodTexture" (by decide)

/-- C2: in every registry state, for a tag that none of the first
`m_loadedTextures` entries carries, `FindTextureSlot` and `FindTextureID` both
return -1; what the slots from `m_loadedTextures` on hold (the placeholder tags
of the constructor) plays no part. -/
theorem FindTexture_miss {F : Type} (s : SceneManager F) (tag : String)
    (h : ∀ i, i < s.m_loadedTextures → (s.m_textureIDs i).tag ≠ tag) :
    FindTextureSlot s tag = -1 ∧ FindTextureID s tag = -1 := by
  constructor
  · exact FindTextureSlot_loop_miss s.m_textureIDs tag s.m_loadedTextures 0 (-1)
      (by intro j hj; rw [Nat.zero_add]; exact h j hj)
  · exact FindTextureID_loop_miss s.m_textureIDs tag s.m_loadedTextures 0 (-1)
      (by intro j hj; rw [Nat.zero_add]; exact h j hj)

theorem FindTexture_miss_witness :
    ((loadSequence exampleDecoder exampleScene exampleCalls).2.m_textureIDs 2).tag = "/0" ∧
    FindTextureSlot (loadSequence exampleDecoder exampleScene exampleCalls).2 "/0" = -1 ∧
    FindTextureID (loadSequence exampleDecoder exampleScene exampleCalls).2 "/0" = -1 :=
  ⟨by decide,
    FindTexture_miss (loadSequence exampleDecoder exampleScene exampleCalls).2 "/0"
      (by
        intro i hi
        have h2 : i < 2 := hi
        interval_cases i <;> decide)⟩

/-- C3: in every registry state, a `CreateGLTexture` call for which the decoder
returns no image, or an image whose channel count is neither 3 nor 4, returns
`false` and leaves the counter and every entry of the registry as they were;
any later sequence of loads then has the same return values and leaves the same
counter, the same tag in every slot and the same `FindTextureSlot` results as
it would without the failed call. -/
theorem CreateGLTexture_failure {F : Type} (stbi_load : String → Option Image)
    (s : SceneManager F) (filename tag : String)
    (hfail : stbi_load filename = none ∨
      ∃ image, stbi_load filename = some image ∧
        image.colorChannels ≠ 3 ∧ image.colorChannels ≠ 4) :
    (CreateGLTexture stbi_load s filename tag).1 = false ∧
    (CreateGLTexture stbi_load s filename tag).2.m_loadedTextures = s.m_loadedTextures ∧
    (CreateGLTexture stbi_load s filename tag).2.m_textureIDs = s.m_textureIDs ∧
    ∀ later : List (String × String),
      (loadSequence stbi_load (CreateGLTexture stbi_load s filename tag).2 later).1
        = (loadSequence stbi_load s later).1 ∧
      (loadSequence stbi_load (CreateGLTexture stbi_load s filename tag).2 later).2.m_loadedTextures
        = (loadSequence stbi_load s later).2.m_loadedTextures ∧
      (∀ i,
        ((loadSequence stbi_load (CreateGLTexture stbi_load s filename tag).2 later).2.m_textureIDs
            i).tag
          = ((loadSequence stbi_load s later).2.m_textureIDs i).tag) ∧
      ∀ t,
        FindTextureSlot (loadSequence stbi_load (CreateGLTexture stbi_load s filename tag).2 later).2 t
          = FindTextureSlot (loadSequence stbi_load s later).2 t := by
  have hret : (CreateGLTexture stbi_load s filename tag).1 = false := by
    unfold CreateGLTexture
    rcases hfail with hnone | ⟨image, hsome, h3, h4⟩
    · simp [hnone]
    · simp [hsome, glGenTextures, h3, h4]
  obtain ⟨hn, hids⟩ := CreateGLTexture_false stbi_load s filename tag hret
  refine ⟨hret, hn, hids, ?_⟩
  intro later
  obtain ⟨h1, h2, h3⟩ := loadSequence_congr stbi_load later
    (CreateGLTexture stbi_load s filename tag).2 s hn (by intro i; rw [hids])
  refine ⟨h1, h2, h3, ?_⟩
  intro t
  unfold FindTextureSlot
  rw [h2]
  exact FindTextureSlot_loop_congr _ _ t h3 _ 0 (-1)

theorem CreateGLTexture_failure_witness :
    (CreateGLTexture exampleDecoder sixteenLoaded "gray.jpg" "grayTexture").1 = false ∧
    (CreateGLTexture exampleDecoder sixteenLoaded "gray.jpg" "grayTexture").2.m_loadedTextures
      = 16 :=
  have h := CreateGLTexture_failure exampleDecoder sixteenLoaded "gray.jpg" "grayTexture"
    (Or.inr ⟨{ width := 8, height := 8, colorChannels := 1 }, by decide, by decide, by decide⟩)
  ⟨h.1, h.2.1.trans (by decide)⟩

/-- C4 (the code at the failing input): with sixteen textures registered, one
more `CreateGLTexture` call for an RGB image returns `true`, stores the new
entry at index 16, past the last element of the array, and raises the counter
to 17. -/
theorem CreateGLTexture_seventeenth :
    (loadSequence exampleDecoder exampleScene sixteenCalls).1 = List.replicate 16 true ∧
    sixteenLoaded.m_loadedTextures = 16 ∧
    (CreateGLTexture exampleDecoder sixteenLoaded "extra.jpg" "extraTexture").1 = true ∧
    (CreateGLTexture exampleDecoder sixteenLoaded "extra.jpg" "extraTexture").2.m_loadedTextures
      = 17 ∧
    (CreateGLTexture exampleDecoder sixteenLoaded "extra.jpg" "extraTexture").2.m_textureIDs 16
      = { tag := "extraTexture", ID := 17 } ∧
    FindTextureSlot (CreateGLTexture exampleDecoder sixteenLoaded "extra.jpg" "extraTexture").2
      "extraTexture" = 16 := by
  decide

/-! ## Lemmas on the uniform store and the material registry -/

theorem ShaderManager.getUniform_setUniform_same {F : Type} (sh : ShaderManager F)
    (name : String) (v : UniformValue F) :
    (sh.setUniform name v).getUniform name = some v := by
  simp [ShaderManager.getUniform, ShaderManager.setUniform]

theorem ShaderManager.getUniform_setUniform_other {F : Type} (sh : ShaderManager F)
    (name other : String) (v : UniformValue F) (h : other ≠ name) :
    (sh.setUniform name v).getUniform other = sh.getUniform other := by
  have h2 : ¬ name = other := fun e => h e.symm
  simp [ShaderManager.getUniform, ShaderManager.setUniform, List.find?_cons, h2]

/-- The scan stops at the first entry with the tag. -/
theorem FindMaterial_loop_first {F : Type} (tag : String) (m material : OBJECT_MATERIAL F)
    (after : List (OBJECT_MATERIAL F)) (hm : m.tag = tag) :
    ∀ before : List (OBJECT_MATERIAL F), (∀ x ∈ before, x.tag ≠ tag) →
      FindMaterial.loop tag (before ++ m :: after) material =
        { material with
          ambientColor := m.ambientColor
          ambientStrength := m.ambientStrength
          diffuseColor := m.diffuseColor
          specularColor := m.specularColor
          shininess := m.shininess } := by
  intro before
  induction before with
  | nil => intro _; simp [FindMaterial.loop, hm]
  | cons x rest ih =>
    intro h
    have hx : x.tag ≠ tag := h x (List.mem_cons_self x rest)
    rw [List.cons_append, FindMaterial.loop, if_neg hx]
    exact ih (fun y hy => h y (List.mem_cons_of_mem x hy))

/-- C5 (the code at the failing input): on a registry of three materials, none
of which is tagged `granite`, `FindMaterial` returns `true` for the tag
`granite`; the output material is left as it was. -/
theorem FindMaterial_reports_found_on_miss :
    (∀ m ∈ materialScene.m_objectMaterials, m.tag ≠ "granite") ∧
    FindMaterial materialScene "granite" blankMaterial = (true, blankMaterial) := by
  decide

/-- C6 (the code at the failing input): with three materials defined, none of
them tagged `granite`, and the uniforms holding the reflectance of `metal`,
`SetShaderMaterial` for `granite` makes five further uniform writes, which
replace those values by the content the local variable started with. -/
theorem SetShaderMaterial_writes_on_miss :
    (∀ m ∈ materialScene.m_objectMaterials, m.tag ≠ "granite") ∧
    ∃ s1 sh1 s2 sh2,
      SetShaderMaterial materialScene "metal" blankMaterial = some s1 ∧
      s1.m_pShaderManager = some sh1 ∧
      sh1.getUniform "material.shininess" = some (.float 22) ∧
      sh1.getUniform "material.specularColor" = some (.vec3 goldMaterial.specularColor) ∧
      SetShaderMaterial s1 "granite" blankMaterial = some s2 ∧
      s2.m_pShaderManager = some sh2 ∧
      sh2.uniforms.length = sh1.uniforms.length + 5 ∧
      sh2.getUniform "material.ambientColor" = some (.vec3 blankMaterial.ambientColor) ∧
      sh2.getUniform "material.ambientStrength" = some (.float 9) ∧
      sh2.getUniform "material.diffuseColor" = some (.vec3 blankMaterial.diffuseColor) ∧
      sh2.getUniform "material.specularColor" = some (.vec3 blankMaterial.specularColor) ∧
      sh2.getUniform "material.shininess" = some (.float 9) := by
  refine ⟨by decide, _, _, _, _, rfl, rfl, by decide, by decide, rfl, rfl, ?_⟩
  decide

/-- C7: when the registry is `before ++ m :: after` with `m` the earliest
material tagged `tag` (later ones in `after` may share the tag), `FindMaterial`
returns `true` with the five reflectance fields of `m` in the output material,
and `SetShaderMaterial`, with a shader manager attached, makes exactly five
uniform writes: those five values to the `material.*` uniforms. -/
theorem FindMaterial_first_match {F : Type} (s : SceneManager F) (sh : ShaderManager F)
    (tag : String) (before after : List (OBJECT_MATERIAL F)) (m material : OBJECT_MATERIAL F)
    (hreg : s.m_objectMaterials = before ++ m :: after)
    (hm : m.tag = tag)
    (hfirst : ∀ x ∈ before, x.tag ≠ tag)
    (hsh : s.m_pShaderManager = some sh) :
    FindMaterial s tag material =
      (true,
        { ambientColor := m.ambientColor
          ambientStrength := m.ambientStrength
          diffuseColor := m.diffuseColor
          specularColor := m.specularColor
          shininess := m.shininess
          tag := material.tag }) ∧
    SetShaderMaterial s tag material =
      some { s with
        m_pShaderManager := some
          { uniforms :=
              ("material.shininess", .float m.shininess) ::
              ("material.specularColor", .vec3 m.specularColor) ::
              ("material.diffuseColor", .vec3 m.diffuseColor) ::
              ("material.ambientStrength", .float m.ambientStrength) ::
              ("material.ambientColor", .vec3 m.ambientColor) :: sh.uniforms } } := by
  have hlen : ¬ s.m_objectMaterials.length = 0 := by rw [hreg]; simp
  have hfind : FindMaterial s tag material =
      (true,
        { ambientColor := m.ambientColor
          ambientStrength := m.ambientStrength
          diffuseColor := m.diffuseColor
          specularColor := m.specularColor
          shininess := m.shininess
          tag := material.tag }) := by
    unfold FindMaterial
    rw [if_neg hlen, hreg, FindMaterial_loop_first tag m material after hm before hfirst]
  refine ⟨hfind, ?_⟩
  unfold SetShaderMaterial
  rw [if_pos (Nat.pos_of_ne_zero hlen), hfind]
  simp [hsh, ShaderManager.setVec3Value, ShaderManager.setFloatValue, ShaderManager.setUniform]

theorem FindMaterial_first_match_witness :
    FindMaterial materialScene "wood" blankMaterial =
      (true,
        { ambientColor := woodMaterial.ambientColor
          ambientStrength := woodMaterial.ambientStrength
          diffuseColor := woodMaterial.diffuseColor
          specularColor := woodMaterial.specularColor
          shininess := woodMaterial.shininess
          tag := blankMaterial.tag }) ∧
    SetShaderMaterial materialScene "wood" blankMaterial =
      some { materialScene with
        m_pShaderManager := some
          { uniforms :=
              ("material.shininess", .float woodMaterial.shininess) ::
              ("material.specularColor", .vec3 woodMaterial.specularColor) ::
              ("material.diffuseColor", .vec3 woodMaterial.diffuseColor) ::
              ("material.ambientStrength", .float woodMaterial.ambientStrength) ::
              ("material.ambientColor", .vec3 woodMaterial.ambientColor) ::
              (ShaderManager.mk []).uniforms } } :=
  FindMaterial_first_match materialScene { uniforms := [] } "wood" [goldMaterial]
    [darkWoodMaterial] woodMaterial blankMaterial rfl rfl (by decide) rfl

/-- C8: with a shader manager attached, in every registry state and for every
tag, `SetShaderTexture` leaves `bUseTexture` at 1 (true) and `objectTexture` at
`FindTextureSlot(tag)`, which is the slot index when the tag is registered and
-1 when it is not (the flag is 1 in that case too); every other uniform and the
registry keep their values. -/
theorem SetShaderTexture_uniforms {F : Type} (s : SceneManager F) (sh : ShaderManager F)
    (tag : String) (hsh : s.m_pShaderManager = some sh) :
    ∃ sh2, (SetShaderTexture s tag).m_pShaderManager = some sh2 ∧
      sh2.getUniform "bUseTexture" = some (.int 1) ∧
      sh2.getUniform "objectTexture" = some (.sampler2D (FindTextureSlot s tag)) ∧
      (∀ name, name ≠ "bUseTexture" → name ≠ "objectTexture" →
        sh2.getUniform name = sh.getUniform name) ∧
      (∀ k, k < s.m_loadedTextures → (s.m_textureIDs k).tag = tag →
        (∀ j, j < k → (s.m_textureIDs j).tag ≠ tag) →
        sh2.getUniform "objectTexture" = some (.sampler2D (k : Int))) ∧
      ((∀ i, i < s.m_loadedTextures → (s.m_textureIDs i).tag ≠ tag) →
        sh2.getUniform "bUseTexture" = some (.int 1) ∧
        sh2.getUniform "objectTexture" = some (.sampler2D (-1))) ∧
      (SetShaderTexture s tag).m_textureIDs = s.m_textureIDs ∧
      (SetShaderTexture s tag).m_loadedTextures = s.m_loadedTextures := by
  have hflag : (((sh.setIntValue g_UseTextureName 1).setSampler2DValue g_TextureValueName
      (FindTextureSlot s tag)).getUniform "bUseTexture") = some (.int 1) := by
    unfold ShaderManager.setSampler2DValue ShaderManager.setIntValue
    rw [ShaderManager.getUniform_setUniform_other _ _ _ _ (by decide)]
    exact ShaderManager.getUniform_setUniform_same _ _ _
  have hslot : (((sh.setIntValue g_UseTextureName 1).setSampler2DValue g_TextureValueName
      (FindTextureSlot s tag)).getUniform "objectTexture")
        = some (.sampler2D (FindTextureSlot s tag)) := by
    unfold ShaderManager.setSampler2DValue
    exact ShaderManager.getUniform_setUniform_same _ _ _
  refine ⟨(sh.setIntValue g_UseTextureName 1).setSampler2DValue g_TextureValueName
    (FindTextureSlot s tag), ?_, hflag, hslot, ?_, ?_, ?_, ?_, ?_⟩
  · simp [SetShaderTexture, hsh]
  · intro name h1 h2
    unfold ShaderManager.setSampler2DValue ShaderManager.setIntValue
    rw [ShaderManager.getUniform_setUniform_other _ g_TextureValueName _ _ h2,
      ShaderManager.getUniform_setUniform_other _ g_UseTextureName _ _ h1]
  · intro k hk hit hfirst
    rw [hslot]
    have := FindTextureSlot_loop_hit s.m_textureIDs tag s.m_loadedTextures 0 k (-1) hk
      (by rw [Nat.zero_add]; exact hit)
      (by intro j hj; rw [Nat.zero_add]; exact hfirst j hj)
    rw [Nat.zero_add] at this
    unfold FindTextureSlot
    rw [this]
  · intro hmiss
    refine ⟨hflag, ?_⟩
    rw [hslot]
    have := FindTextureSlot_loop_miss s.m_textureIDs tag s.m_loadedTextures 0 (-1)
      (by intro j hj; rw [Nat.zero_add]; exact hmiss j hj)
    unfold FindTextureSlot
    rw [this]
  · simp [SetShaderTexture, hsh]
  · simp [SetShaderTexture, hsh]

theorem SetShaderTexture_uniforms_witness :
    ∃ sh2, (SetShaderTexture exampleShadedScene "graniteTexture").m_pShaderManager = some sh2 ∧
      sh2.getUniform "bUseTexture" = some (.int 1) ∧
      sh2.getUniform "objectTexture" = some (.sampler2D (-1)) := by
  obtain ⟨sh2, h1, h2, -, -, -, h6, -⟩ :=
    SetShaderTexture_uniforms exampleShadedScene { uniforms := [] } "graniteTexture" rfl
  exact ⟨sh2, h1, h2, (h6 (by intro i hi; exact absurd hi (Nat.not_lt_zero i))).2⟩

/-! ## Lemmas on the glm matrices

In exact arithmetic (a commutative ring) the matrices glm builds are the
textbook ones: the axis-angle form of `glm::rotate` about a coordinate axis is
the rotation matrix of that axis.  The theorem on `SetTransformations` does not
rest on these: it is stated over `Float32`. -/

theorem glm.scale_eq_specScale {F : Type} [CommRing F] (v : vec3 F) :
    glm.scale v = specScale v := by
  rfl

theorem glm.translate_eq_specTranslate {F : Type} [CommRing F] (v : vec3 F) :
    glm.translate v = specTranslate v := by
  rfl

theorem glm.rotate_x {F : Type} [CommRing F] (gm : GlmMath F) (hunit : gm.inversesqrt 1 = 1)
    (angle : F) :
    glm.rotate gm angle { x := 1, y := 0, z := 0 }
      = specRotateX (gm.cos angle) (gm.sin angle) := by
  funext i j
  fin_cases i <;> fin_cases j <;> simp [glm.rotate, glm.normalize, specRotateX, mat4.ofRows, hunit]

theorem glm.rotate_y {F : Type} [CommRing F] (gm : GlmMath F) (hunit : gm.inversesqrt 1 = 1)
    (angle : F) :
    glm.rotate gm angle { x := 0, y := 1, z := 0 }
      = specRotateY (gm.cos angle) (gm.sin angle) := by
  funext i j
  fin_cases i <;> fin_cases j <;> simp [glm.rotate, glm.normalize, specRotateY, mat4.ofRows, hunit]

theorem glm.rotate_z {F : Type} [CommRing F] (gm : GlmMath F) (hunit : gm.inversesqrt 1 = 1)
    (angle : F) :
    glm.rotate gm angle { x := 0, y := 0, z := 1 }
      = specRotateZ (gm.cos angle) (gm.sin angle) := by
  funext i j
  fin_cases i <;> fin_cases j <;> simp [glm.rotate, glm.normalize, specRotateZ, mat4.ofRows, hunit]

/-- A rotation by an angle of cosine 1 and sine 0 about the x axis changes nothing. -/
theorem glm.mul_specRotateX_one {F : Type} [CommRing F] (m : mat4 F) :
    glm.mul m (specRotateX 1 0) = m := by
  funext i j
  fin_cases j <;> simp [glm.mul, specRotateX, mat4.ofRows]

theorem glm.mul_specRotateZ_one {F : Type} [CommRing F] (m : mat4 F) :
    glm.mul m (specRotateZ 1 0) = m := by
  funext i j
  fin_cases j <;> simp [glm.mul, specRotateZ, mat4.ofRows]

set_option maxRecDepth 100000

/-- The rotation by 0 degrees about an axis, as glm builds it in IEEE `float`
from a cosine of 1 and a sine of 0: the identity. -/
theorem glm_rotate_zero (gm : GlmMath Float32) (angle : Float32)
    (hc : gm.cos angle = 1) (hs : gm.sin angle = 0) (hinv : gm.inversesqrt 1 = 1) :
    glm.rotate gm angle { x := 1, y := 0, z := 0 }
      = mat4.ofRows (1, 0, 0, 0) (0, 1, 0, 0) (0, 0, 1, 0) (0, 0, 0, 1) ∧
    glm.rotate gm angle { x := 0, y := 0, z := 1 }
      = mat4.ofRows (1, 0, 0, 0) (0, 1, 0, 0) (0, 0, 1, 0) (0, 0, 0, 1) := by
  have hx : ((1 : Float32) * 1 + 0 * 0 + 0 * 0) = 1 := by decide
  have hz : ((0 : Float32) * 0 + 0 * 0 + 1 * 1) = 1 := by decide
  constructor
  · simp only [glm.rotate, glm.normalize, hc, hs, hx, hinv]
    decide
  · simp only [glm.rotate, glm.normalize, hc, hs, hz, hinv]
    decide

/-- The rotation by 90 degrees about the y axis, as glm builds it in IEEE
`float` from the cosine `cosHalfPi` and the sine 1. -/
theorem glm_rotate_y_halfPi (gm : GlmMath Float32)
    (hc : gm.cos halfPi = cosHalfPi) (hs : gm.sin halfPi = 1) (hinv : gm.inversesqrt 1 = 1) :
    glm.rotate gm halfPi { x := 0, y := 1, z := 0 }
      = mat4.ofRows (cosHalfPi, 0, 1, 0) (0, Float32.ofRat 16777215 16777216, 0, 0)
          (Float32.ofRat (-1) 1, 0, cosHalfPi, 0) (0, 0, 0, 1) := by
  have hy : ((0 : Float32) * 0 + 1 * 1 + 0 * 0) = 1 := by decide
  simp only [glm.rotate, glm.normalize, hc, hs, hy, hinv]
  decide

/-- A call other than `SetShaderTexture`, made with a shader manager attached,
completes and leaves a `bUseTexture` of 0 at 0. -/
theorem SceneCall.run_keeps_flat {F : Type} [Ring F] (gm : GlmMath F) (c : SceneCall F)
    (hc : c.isTexture = false) (s : SceneManager F) (sh : ShaderManager F)
    (hsh : s.m_pShaderManager = some sh)
    (hflag : sh.getUniform "bUseTexture" = some (.int 0)) :
    ∃ s2 sh2, c.run gm s = some s2 ∧ s2.m_pShaderManager = some sh2 ∧
      sh2.getUniform "bUseTexture" = some (.int 0) := by
  cases c with
  | setTransformations sc x y z p =>
    simp only [SceneCall.run, SetTransformations, hsh]
    refine ⟨_, _, rfl, rfl, ?_⟩
    rw [← hflag]
    exact ShaderManager.getUniform_setUniform_other _ g_ModelName _ _ (by decide)
  | setShaderColor r g b a =>
    simp only [SceneCall.run, SetShaderColor, hsh]
    refine ⟨_, _, rfl, rfl, ?_⟩
    unfold ShaderManager.setVec4Value ShaderManager.setIntValue
    rw [ShaderManager.getUniform_setUniform_other _ g_ColorValueName _ _ (by decide)]
    exact ShaderManager.getUniform_setUniform_same _ _ _
  | setShaderTexture t => simp [SceneCall.isTexture] at hc
  | setTextureUVScale u v =>
    simp only [SceneCall.run, SetTextureUVScale, hsh]
    refine ⟨_, _, rfl, rfl, ?_⟩
    rw [← hflag]
    exact ShaderManager.getUniform_setUniform_other _ "UVscale" _ _ (by decide)
  | setShaderMaterial t m =>
    by_cases hlen : s.m_objectMaterials.length > 0
    · have hne : ¬ s.m_objectMaterials.length = 0 := by omega
      simp only [SceneCall.run, SetShaderMaterial, FindMaterial, hlen, hne, if_true, if_false,
        hsh]
      refine ⟨_, _, rfl, rfl, ?_⟩
      unfold ShaderManager.setVec3Value ShaderManager.setFloatValue
      rw [ShaderManager.getUniform_setUniform_other _ "material.shininess" _ _ (by decide),
        ShaderManager.getUniform_setUniform_other _ "material.specularColor" _ _ (by decide),
        ShaderManager.getUniform_setUniform_other _ "material.diffuseColor" _ _ (by decide),
        ShaderManager.getUniform_setUniform_other _ "material.ambientStrength" _ _ (by decide),
        ShaderManager.getUniform_setUniform_other _ "material.ambientColor" _ _ (by decide)]
      exact hflag
    · exact ⟨s, sh, by simp only [SceneCall.run, SetShaderMaterial, hlen, if_false], hsh, hflag⟩
  | drawMesh k => exact ⟨_, sh, rfl, by simp only [DrawMesh, hsh], hflag⟩

theorem runCalls_keeps_flat {F : Type} [Ring F] (gm : GlmMath F) :
    ∀ (calls : List (SceneCall F)) (s : SceneManager F) (sh : ShaderManager F),
      (∀ c ∈ calls, c.isTexture = false) →
      s.m_pShaderManager = some sh →
      sh.getUniform "bUseTexture" = some (.int 0) →
      ∃ s2 sh2, runCalls gm s calls = some s2 ∧ s2.m_pShaderManager = some sh2 ∧
        sh2.getUniform "bUseTexture" = some (.int 0) := by
  intro calls
  induction calls with
  | nil => intro s sh _ hsh hflag; exact ⟨s, sh, rfl, hsh, hflag⟩
  | cons c rest ih =>
    intro s sh hall hsh hflag
    obtain ⟨s1, sh1, hrun, hsh1, hflag1⟩ :=
      SceneCall.run_keeps_flat gm c (hall c (List.mem_cons_self c rest)) s sh hsh hflag
    obtain ⟨s2, sh2, hrest, hsh2, hflag2⟩ :=
      ih s1 sh1 (fun d hd => hall d (List.mem_cons_of_mem c hd)) hsh1 hflag1
    refine ⟨s2, sh2, ?_, hsh2, hflag2⟩
    simp only [runCalls, hrun, hrest]

/-- C10: with a shader manager attached, for every prior uniform state and every
(r,g,b,a), `SetShaderColor` leaves `bUseTexture` at 0 (false) and `objectColor`
at (r,g,b,a) and every other uniform at its prior value; any sequence of calls
after it that contains no `SetShaderTexture` (transform, UV scale, material,
flat colour, mesh draw) completes with `bUseTexture` still 0. -/
theorem SetShaderColor_uniforms {F : Type} [Ring F] (gm : GlmMath F) (s : SceneManager F)
    (sh : ShaderManager F) (r g b a : F) (hsh : s.m_pShaderManager = some sh) :
    ∃ sh2, (SetShaderColor s r g b a).m_pShaderManager = some sh2 ∧
      sh2.getUniform "bUseTexture" = some (.int 0) ∧
      sh2.getUniform "objectColor" = some (.vec4 { r := r, g := g, b := b, a := a }) ∧
      (∀ name, name ≠ "bUseTexture" → name ≠ "objectColor" →
        sh2.getUniform name = sh.getUniform name) ∧
      ∀ calls : List (SceneCall F), (∀ c ∈ calls, c.isTexture = false) →
        ∃ s3 sh3, runCalls gm (SetShaderColor s r g b a) calls = some s3 ∧
          s3.m_pShaderManager = some sh3 ∧
          sh3.getUniform "bUseTexture" = some (.int 0) := by
  have hnew : (SetShaderColor s r g b a).m_pShaderManager
      = some ((sh.setIntValue g_UseTextureName 0).setVec4Value g_ColorValueName
          { r := r, g := g, b := b, a := a }) := by
    simp only [SetShaderColor, hsh]
  have hflag : ((sh.setIntValue g_UseTextureName 0).setVec4Value g_ColorValueName
      { r := r, g := g, b := b, a := a }).getUniform "bUseTexture" = some (.int 0) := by
    unfold ShaderManager.setVec4Value ShaderManager.setIntValue
    rw [ShaderManager.getUniform_setUniform_other _ g_ColorValueName _ _ (by decide)]
    exact ShaderManager.getUniform_setUniform_same _ _ _
  refine ⟨_, hnew, hflag, ?_, ?_, ?_⟩
  · exact ShaderManager.getUniform_setUniform_same _ _ _
  · intro name h1 h2
    unfold ShaderManager.setVec4Value ShaderManager.setIntValue
    rw [ShaderManager.getUniform_setUniform_other _ g_ColorValueName _ _ h2,
      ShaderManager.getUniform_setUniform_other _ g_UseTextureName _ _ h1]
  · intro calls hcalls
    exact runCalls_keeps_flat gm calls _ _ hcalls hnew hflag

theorem SetShaderColor_uniforms_witness :
    ∃ sh2, (SetShaderColor materialScene 0 0 0 1).m_pShaderManager = some sh2 ∧
      sh2.getUniform "bUseTexture" = some (.int 0) ∧
      sh2.getUniform "objectColor" = some (.vec4 { r := 0, g := 0, b := 0, a := 1 }) ∧
      ∃ s3 sh3,
        runCalls exampleMath (SetShaderColor materialScene 0 0 0 1)
          [.setTransformations { x := 1, y := 1, z := 1 } 0 0 0 { x := 0, y := 0, z := 0 },
           .setShaderMaterial "wood" blankMaterial,
           .drawMesh MeshKind.cylinder] = some s3 ∧
        s3.m_pShaderManager = some sh3 ∧
        sh3.getUniform "bUseTexture" = some (.int 0) := by
  obtain ⟨sh2, h1, h2, h3, -, h5⟩ :=
    SetShaderColor_uniforms exampleMath materialScene { uniforms := [] } 0 0 0 1 rfl
  exact ⟨sh2, h1, h2, h3, h5 _ (by decide)⟩

/-! ## Lemmas on scene set-up and rendering -/

/-- A call completes when a shader manager is attached or no material is
defined; it appends its draw, if any, to the draws issued and keeps the
materials and the presence of the shader manager. -/
theorem SceneCall.run_drawn {F : Type} [Ring F] (gm : GlmMath F) (c : SceneCall F)
    (s : SceneManager F)
    (h : s.m_pShaderManager.isSome = true ∨ s.m_objectMaterials = []) :
    ∃ s2, c.run gm s = some s2 ∧
      s2.m_basicMeshes.drawn = s.m_basicMeshes.drawn ++ drawnKinds [c.kind] ∧
      s2.m_objectMaterials = s.m_objectMaterials ∧
      s2.m_pShaderManager.isSome = s.m_pShaderManager.isSome := by
  cases c with
  | setTransformations sc x y z p =>
    refine ⟨_, rfl, ?_, ?_, ?_⟩ <;>
      cases hs : s.m_pShaderManager <;>
      simp [SetTransformations, hs, drawnKinds, SceneCall.kind]
  | setShaderColor r g b a =>
    refine ⟨_, rfl, ?_, ?_, ?_⟩ <;>
      cases hs : s.m_pShaderManager <;>
      simp [SetShaderColor, hs, drawnKinds, SceneCall.kind]
  | setShaderTexture t =>
    refine ⟨_, rfl, ?_, ?_, ?_⟩ <;>
      cases hs : s.m_pShaderManager <;>
      simp [SetShaderTexture, hs, drawnKinds, SceneCall.kind]
  | setTextureUVScale u v =>
    refine ⟨_, rfl, ?_, ?_, ?_⟩ <;>
      cases hs : s.m_pShaderManager <;>
      simp [SetTextureUVScale, hs, drawnKinds, SceneCall.kind]
  | setShaderMaterial t m =>
    by_cases hlen : s.m_objectMaterials.length > 0
    · have hne : ¬ s.m_objectMaterials.length = 0 := by omega
      have hsome : s.m_pShaderManager.isSome = true := by
        rcases h with h | h
        · exact h
        · rw [h] at hlen; simp at hlen
      obtain ⟨sh, hsh⟩ := Option.isSome_iff_exists.mp hsome
      simp only [SceneCall.run, SetShaderMaterial, FindMaterial, hlen, hne, if_true, if_false,
        hsh]
      exact ⟨_, rfl, by simp [drawnKinds, SceneCall.kind], rfl, rfl⟩
    · simp only [SceneCall.run, SetShaderMaterial, hlen, if_false]
      exact ⟨s, rfl, by simp [drawnKinds, SceneCall.kind], rfl, rfl⟩
  | drawMesh k =>
    exact ⟨_, rfl, by simp [DrawMesh, ShapeMeshes.draw, drawnKinds, SceneCall.kind], rfl, rfl⟩

theorem drawnKinds_cons (k : CallKind) (rest : List CallKind) :
    drawnKinds (k :: rest) = drawnKinds [k] ++ drawnKinds rest := by
  cases k <;> simp [drawnKinds]

theorem runCalls_drawn {F : Type} [Ring F] (gm : GlmMath F) :
    ∀ (calls : List (SceneCall F)) (s : SceneManager F),
      (s.m_pShaderManager.isSome = true ∨ s.m_objectMaterials = []) →
      ∃ s2, runCalls gm s calls = some s2 ∧
        s2.m_basicMeshes.drawn
          = s.m_basicMeshes.drawn ++ drawnKinds (calls.map SceneCall.kind) ∧
        s2.m_objectMaterials = s.m_objectMaterials ∧
        s2.m_pShaderManager.isSome = s.m_pShaderManager.isSome := by
  intro calls
  induction calls with
  | nil => intro s _; exact ⟨s, rfl, by simp [drawnKinds], rfl, rfl⟩
  | cons c rest ih =>
    intro s h
    obtain ⟨s1, hrun, hd1, hm1, hp1⟩ := SceneCall.run_drawn gm c s h
    obtain ⟨s2, hrest, hd2, hm2, hp2⟩ := ih s1 (by rw [hp1, hm1]; exact h)
    refine ⟨s2, by simp only [runCalls, hrun, hrest], ?_, by rw [hm2, hm1], by rw [hp2, hp1]⟩
    rw [hd2, hd1, List.map_cons, List.append_assoc]
    exact congrArg _ (drawnKinds_cons (SceneCall.kind c) _).symm

/-- The method `PrepareScene` completes only with a shader manager attached, and
leaves the materials and the draws issued as they were. -/
theorem PrepareScene_some {F : Type} [Field F] (stbi_load : String → Option Image)
    (s0 s : SceneManager F) (h : PrepareScene stbi_load s0 = some s) :
    s.m_pShaderManager.isSome = true ∧
    s.m_objectMaterials = s0.m_objectMaterials ∧
    s.m_basicMeshes.drawn = s0.m_basicMeshes.drawn := by
  have hload : ∀ (calls : List (String × String)) (t : SceneManager F),
      (loadSequence stbi_load t calls).2.m_objectMaterials = t.m_objectMaterials ∧
      (loadSequence stbi_load t calls).2.m_basicMeshes = t.m_basicMeshes ∧
      (loadSequence stbi_load t calls).2.m_pShaderManager = t.m_pShaderManager := by
    intro calls
    induction calls with
    | nil => intro t; exact ⟨rfl, rfl, rfl⟩
    | cons c rest ih =>
      intro t
      obtain ⟨filename, tag⟩ := c
      obtain ⟨i1, i2, i3⟩ := ih (CreateGLTexture stbi_load t filename tag).2
      have hc : (CreateGLTexture stbi_load t filename tag).2.m_objectMaterials
            = t.m_objectMaterials ∧
          (CreateGLTexture stbi_load t filename tag).2.m_basicMeshes = t.m_basicMeshes ∧
          (CreateGLTexture stbi_load t filename tag).2.m_pShaderManager
            = t.m_pShaderManager := by
        unfold CreateGLTexture
        cases stbi_load filename with
        | none => exact ⟨rfl, rfl, rfl⟩
        | some image =>
          by_cases hch : image.colorChannels = 3 ∨ image.colorChannels = 4 <;>
            simp [glGenTextures, hch]
      simp only [loadSequence]
      exact ⟨i1.trans hc.1, i2.trans hc.2.1, i3.trans hc.2.2⟩
  unfold PrepareScene at h
  cases hl : SetupSceneLights (LoadSceneTextures stbi_load s0) with
  | none => rw [hl] at h; simp at h
  | some s2 =>
    rw [hl] at h
    simp only [Option.some.injEq] at h
    unfold SetupSceneLights at hl
    cases hsh : (LoadSceneTextures stbi_load s0).m_pShaderManager with
    | none => rw [hsh] at hl; simp at hl
    | some sh =>
      rw [hsh] at hl
      simp only [Option.some.injEq] at hl
      obtain ⟨l1, l2, -⟩ := hload
        [("Source/Brick.jpg", "brickTexture"),
         ("Source/Wood.jpg", "woodTexture"),
         ("Source/Granite.jpg", "graniteTexture"),
         ("Source/ceramicMaterial.jpg", "mugTexture"),
         ("Source/monsterTexture.jpg", "monsterTexture"),
         ("Source/blackboxTexture.jpg", "blackboxTexture"),
         ("Source/monsterTop.jpg", "monsterTopTexture"),
         ("Source/orangeTexture.jpg", "orangeTexture")] s0
      subst h
      subst hl
      refine ⟨rfl, ?_, ?_⟩
      · exact l1
      · simp only [ShapeMeshes.load]
        exact congrArg ShapeMeshes.drawn l2

/-- C11 (the code at the failing input): `DefineObjectMaterials` holds the table
of six materials, but `PrepareScene()` on a freshly constructed scene manager
does not call it: the material registry is empty afterwards, `FindMaterial`
reports nothing found, the `SetShaderMaterial` calls for `granite`, `wood`,
`metal` and `ceramicMaterial` change nothing, and after `RenderScene()` none of
the five `material.*` uniforms has been written. -/
theorem PrepareScene_defines_no_material :
    (DefineObjectMaterials exampleShadedScene).m_objectMaterials.map (fun m => m.tag)
      = ["metal", "wood", "granite", "ceramicMaterial", "matteMaterial", "metalCanMaterial"] ∧
    PrepareScene exampleDecoder exampleShadedScene = some preparedScene ∧
    preparedScene.m_objectMaterials = [] ∧
    FindMaterial preparedScene "granite" blankMaterial = (false, blankMaterial) ∧
    SetShaderMaterial preparedScene "granite" blankMaterial = some preparedScene ∧
    SetShaderMaterial preparedScene "wood" blankMaterial = some preparedScene ∧
    SetShaderMaterial preparedScene "metal" blankMaterial = some preparedScene ∧
    SetShaderMaterial preparedScene "ceramicMaterial" blankMaterial = some preparedScene ∧
    ∃ s2 sh2, RenderScene exampleMath preparedScene exampleLocals = some s2 ∧
      s2.m_pShaderManager = some sh2 ∧
      sh2.getUniform "material.ambientColor" = none ∧
      sh2.getUniform "material.ambientStrength" = none ∧
      sh2.getUniform "material.diffuseColor" = none ∧
      sh2.getUniform "material.specularColor" = none ∧
      sh2.getUniform "material.shininess" = none := by
  refine ⟨rfl, rfl, rfl, rfl, rfl, rfl, rfl, rfl, _, _, rfl, rfl, ?_, ?_, ?_, ?_, ?_⟩ <;> decide

/-- C12: in every state reached by `PrepareScene()`, whatever the decoder did
with the texture files and whatever the registries hold, `RenderScene()`
completes and issues exactly 9 mesh draws, in the order plane, box, cylinder,
cone, cylinder, cylinder, cylinder, torus, cylinder; every draw has, since the
draw before it, exactly one `SetTransformations` call and exactly one
appearance call (`SetShaderTexture` or `SetShaderColor`). -/
theorem RenderScene_draws {F : Type} [Field F] (gm : GlmMath F)
    (stbi_load : String → Option Image) (s0 s : SceneManager F)
    (locals : Nat → OBJECT_MATERIAL F) (hprep : PrepareScene stbi_load s0 = some s) :
    ∃ s2, RenderScene gm s locals = some s2 ∧
      s2.m_basicMeshes.drawn = s0.m_basicMeshes.drawn ++
        [.plane, .box, .cylinder, .cone, .cylinder, .cylinder, .cylinder, .torus, .cylinder] ∧
      drawnKinds ((RenderScene.calls locals).map SceneCall.kind)
        = [.plane, .box, .cylinder, .cone, .cylinder, .cylinder, .cylinder, .torus, .cylinder] ∧
      (drawnKinds ((RenderScene.calls locals).map SceneCall.kind)).length = 9 ∧
      drawStepsExact ((RenderScene.calls locals).map SceneCall.kind) 0 0 = true := by
  obtain ⟨hsh, -, hdrawn⟩ := PrepareScene_some stbi_load s0 s hprep
  obtain ⟨s2, hrun, hd, -, -⟩ := runCalls_drawn gm (RenderScene.calls locals) s (Or.inl hsh)
  refine ⟨s2, hrun, ?_, rfl, rfl, rfl⟩
  rw [hd, hdrawn]
  rfl

theorem RenderScene_draws_witness :
    ∃ s2, RenderScene exampleMath preparedScene exampleLocals = some s2 ∧
      s2.m_basicMeshes.drawn =
        [.plane, .box, .cylinder, .cone, .cylinder, .cylinder, .cylinder, .torus, .cylinder] := by
  obtain ⟨s2, h1, h2, -⟩ :=
    RenderScene_draws exampleMath exampleDecoder exampleShadedScene preparedScene exampleLocals rfl
  exact ⟨s2, h1, h2⟩

/-! ## Lemmas on the view manager -/

theorem mouseOffsets_append {F : Type} (a b : List (CameraCall F)) :
    mouseOffsets (a ++ b) = mouseOffsets a ++ mouseOffsets b := by
  induction a with
  | nil => rfl
  | cons c rest ih => cases c <;> simp [mouseOffsets, ih]

/-- A `double` minus itself is zero, and zero narrows to zero. -/
theorem Double.sub_self_toFloat (d : Double) : (Double.sub d d).toFloat = 0 := by
  have h : Double.sub d d = ⟨0⟩ := by
    unfold Double.sub
    rw [Int.sub_self]
    decide
  rw [h]
  decide

/-- An exact difference, narrowed and widened again, is the true difference. -/
theorem Double.exactDiff_toFloat (a b : Double) (h : Double.exactDiff a b) :
    (Double.sub a b).toFloat.toDouble = ⟨a.val - b.val⟩ := by
  obtain ⟨h1, h2⟩ := h
  rw [h1]
  exact h2

/-- The first sample: what the callback stores and passes on. -/
theorem Mouse_Position_Callback_seed (v : ViewManager Float32) (x y : Double)
    (h : v.firstMouse = true) :
    (Mouse_Position_Callback ieee v x y).g_pCamera.calls
      = v.g_pCamera.calls ++
        [.ProcessMouseMovement (Double.sub x x.toFloat.toDouble).toFloat
          (Double.sub y.toFloat.toDouble y).toFloat] ∧
    (Mouse_Position_Callback ieee v x y).lastX = x.toFloat ∧
    (Mouse_Position_Callback ieee v x y).lastY = y.toFloat ∧
    (Mouse_Position_Callback ieee v x y).firstMouse = false := by
  simp [Mouse_Position_Callback, h, ieee, Camera.ProcessMouseMovement]

/-- A sample after the first: what the callback stores and passes on. -/
theorem Mouse_Position_Callback_later (v : ViewManager Float32) (x y : Double)
    (h : v.firstMouse = false) :
    (Mouse_Position_Callback ieee v x y).g_pCamera.calls
      = v.g_pCamera.calls ++
        [.ProcessMouseMovement (Double.sub x v.lastX.toDouble).toFloat
          (Double.sub v.lastY.toDouble y).toFloat] ∧
    (Mouse_Position_Callback ieee v x y).lastX = x.toFloat ∧
    (Mouse_Position_Callback ieee v x y).lastY = y.toFloat ∧
    (Mouse_Position_Callback ieee v x y).firstMouse = false := by
  simp [Mouse_Position_Callback, h, ieee, Camera.ProcessMouseMovement]

/-- Exact samples delivered after the first: the offsets passed add up to the
move from the stored position to the position stored at the end. -/
theorem deliverMouse_sums :
    ∀ (samples : List (Double × Double)) (v : ViewManager Float32), v.firstMouse = false →
      exactSamples v.lastX v.lastY samples →
      (offsetValuesX (mouseOffsets (deliverMouse ieee v samples).g_pCamera.calls)).sum
        = (offsetValuesX (mouseOffsets v.g_pCamera.calls)).sum
          + ((deliverMouse ieee v samples).lastX.toDouble.val - v.lastX.toDouble.val) ∧
      (offsetValuesY (mouseOffsets (deliverMouse ieee v samples).g_pCamera.calls)).sum
        = (offsetValuesY (mouseOffsets v.g_pCamera.calls)).sum
          + (v.lastY.toDouble.val - (deliverMouse ieee v samples).lastY.toDouble.val) ∧
      (∀ p, samples.getLast? = some p →
        (deliverMouse ieee v samples).lastX.toDouble = p.1 ∧
        (deliverMouse ieee v samples).lastY.toDouble = p.2) := by
  intro samples
  induction samples with
  | nil => intro v _ _; simp [deliverMouse]
  | cons p rest ih =>
    intro v h hexact
    obtain ⟨hpx, hpy, hdx, hdy, hrest⟩ := hexact
    obtain ⟨hc, hx, hy, hf⟩ := Mouse_Position_Callback_later v p.1 p.2 h
    have hox := Double.exactDiff_toFloat p.1 v.lastX.toDouble hdx
    have hoy := Double.exactDiff_toFloat v.lastY.toDouble p.2 hdy
    have hlx : (Mouse_Position_Callback ieee v p.1 p.2).lastX.toDouble = p.1 := by
      rw [hx]; exact hpx
    have hly : (Mouse_Position_Callback ieee v p.1 p.2).lastY.toDouble = p.2 := by
      rw [hy]; exact hpy
    obtain ⟨i1, i2, i4⟩ := ih (Mouse_Position_Callback ieee v p.1 p.2) hf
      (by rw [hx, hy]; exact hrest)
    have hstep : deliverMouse ieee v (p :: rest)
        = deliverMouse ieee (Mouse_Position_Callback ieee v p.1 p.2) rest := rfl
    rw [hstep]
    refine ⟨?_, ?_, ?_⟩
    · rw [i1, hc, hlx]
      simp only [mouseOffsets_append, mouseOffsets, offsetValuesX, List.map_append,
        List.sum_append, List.map_cons, List.map_nil, List.sum_cons, List.sum_nil, hox]
      omega
    · rw [i2, hc, hly]
      simp only [mouseOffsets_append, mouseOffsets, offsetValuesY, List.map_append,
        List.sum_append, List.map_cons, List.map_nil, List.sum_cons, List.sum_nil, hoy]
      omega
    · intro q hq
      cases rest with
      | nil =>
        simp only [List.getLast?_singleton, Option.some.injEq] at hq
        subst hq
        exact ⟨hlx, hly⟩
      | cons r rest2 =>
        rw [List.getLast?_cons_cons] at hq
        exact i4 q hq

/-- C13 (as amended): for every pair of coordinates `(x, y)`, a
`Mouse_Position_Callback` delivered while `firstMouse` is true leaves
`lastX = (float)x`, `lastY = (float)y` and `firstMouse = false`; when `x` and
`y` are values of `float`, it passes the offset (0, 0) to the camera
(`ProcessMouseMovement(0, 0)`, nothing else) and `lastX = x`, `lastY = y`. -/
theorem Mouse_Position_Callback_first (v : ViewManager Float32) (x y : Double)
    (h : v.firstMouse = true) :
    (Mouse_Position_Callback ieee v x y).lastX = x.toFloat ∧
    (Mouse_Position_Callback ieee v x y).lastY = y.toFloat ∧
    (Mouse_Position_Callback ieee v x y).firstMouse = false ∧
    (x.isFloat → y.isFloat →
      (Mouse_Position_Callback ieee v x y).g_pCamera.calls
        = v.g_pCamera.calls ++ [.ProcessMouseMovement 0 0] ∧
      (Mouse_Position_Callback ieee v x y).lastX.toDouble = x ∧
      (Mouse_Position_Callback ieee v x y).lastY.toDouble = y) := by
  obtain ⟨hc, hx, hy, hf⟩ := Mouse_Position_Callback_seed v x y h
  refine ⟨hx, hy, hf, ?_⟩
  intro hxf hyf
  have hxf2 : x.toFloat.toDouble = x := hxf
  have hyf2 : y.toFloat.toDouble = y := hyf
  refine ⟨?_, by rw [hx]; exact hxf2, by rw [hy]; exact hyf2⟩
  rw [hc, hxf2, hyf2, Double.sub_self_toFloat, Double.sub_self_toFloat]

theorem Mouse_Position_Callback_first_witness :
    (Mouse_Position_Callback ieee ieeeView (Double.ofRat 2561 4) (Double.ofRat (-35) 1)).lastX
      = (Double.ofRat 2561 4).toFloat ∧
    (Mouse_Position_Callback ieee ieeeView (Double.ofRat 2561 4) (Double.ofRat (-35) 1)).lastY
      = (Double.ofRat (-35) 1).toFloat ∧
    (Mouse_Position_Callback ieee ieeeView (Double.ofRat 2561 4)
      (Double.ofRat (-35) 1)).firstMouse = false ∧
    (Mouse_Position_Callback ieee ieeeView (Double.ofRat 2561 4)
      (Double.ofRat (-35) 1)).g_pCamera.calls = [.ProcessMouseMovement 0 0] ∧
    (Mouse_Position_Callback ieee ieeeView (Double.ofRat 2561 4)
      (Double.ofRat (-35) 1)).lastX.toDouble = Double.ofRat 2561 4 ∧
    (Mouse_Position_Callback ieee ieeeView (Double.ofRat 2561 4)
      (Double.ofRat (-35) 1)).lastY.toDouble = Double.ofRat (-35) 1 :=
  have h := Mouse_Position_Callback_first ieeeView (Double.ofRat 2561 4) (Double.ofRat (-35) 1)
    rfl
  ⟨h.1, h.2.1, h.2.2.1, h.2.2.2 (by decide) (by decide)⟩

/-- C13 (the claim as stated, refuted): the first sample at (640.3, 412.7)
passes the offset (1.2207031e-05, 1.2207031e-05) to the camera, not (0, 0), and
leaves `lastX` = 640.29998779296875, which is not `x`. -/
theorem Mouse_Position_Callback_first_inexact :
    ieeeView.firstMouse = true ∧
    (Mouse_Position_Callback ieee ieeeView (Double.ofRat 6403 10)
      (Double.ofRat 4127 10)).g_pCamera.calls
        = [.ProcessMouseMovement (Float32.ofRat 13421773 1099511627776)
            (Float32.ofRat 13421773 1099511627776)] ∧
    (Mouse_Position_Callback ieee ieeeView (Double.ofRat 6403 10)
      (Double.ofRat 4127 10)).g_pCamera.calls ≠ [.ProcessMouseMovement 0 0] ∧
    (Mouse_Position_Callback ieee ieeeView (Double.ofRat 6403 10)
      (Double.ofRat 4127 10)).lastX = Float32.ofRat 10490675 16384 ∧
    (Mouse_Position_Callback ieee ieeeView (Double.ofRat 6403 10)
      (Double.ofRat 4127 10)).lastX.toDouble ≠ Double.ofRat 6403 10 := by
  decide

/-- C14 (as amended): a `Mouse_Position_Callback(x, y)` delivered while
`firstMouse` is false passes to the camera the offset
`((float)(x - lastX), (float)(lastY - y))`, the differences taken in `double`,
and stores `((float)x, (float)y)`.  When `x` and `y` are values of `float` the
stored position is `(x, y)`; when a difference comes out exact the offset is
the true difference; and over any samples that are exact in this way the
offsets passed add up to (last x - stored x, stored y - last y), which from a
first sample on is (last x - first x, first y - last y). -/
theorem Mouse_Position_Callback_offsets (v : ViewManager Float32) (x y : Double)
    (h : v.firstMouse = false) :
    (Mouse_Position_Callback ieee v x y).g_pCamera.calls
      = v.g_pCamera.calls ++
        [.ProcessMouseMovement (Double.sub x v.lastX.toDouble).toFloat
          (Double.sub v.lastY.toDouble y).toFloat] ∧
    (Mouse_Position_Callback ieee v x y).lastX = x.toFloat ∧
    (Mouse_Position_Callback ieee v x y).lastY = y.toFloat ∧
    (x.isFloat → (Mouse_Position_Callback ieee v x y).lastX.toDouble = x) ∧
    (y.isFloat → (Mouse_Position_Callback ieee v x y).lastY.toDouble = y) ∧
    (Double.exactDiff x v.lastX.toDouble →
      (Double.sub x v.lastX.toDouble).toFloat.toDouble = ⟨x.val - v.lastX.toDouble.val⟩) ∧
    (Double.exactDiff v.lastY.toDouble y →
      (Double.sub v.lastY.toDouble y).toFloat.toDouble = ⟨v.lastY.toDouble.val - y.val⟩) ∧
    (∀ (samples : List (Double × Double)) (p : Double × Double),
      exactSamples v.lastX v.lastY samples → samples.getLast? = some p →
      (offsetValuesX (mouseOffsets (deliverMouse ieee v samples).g_pCamera.calls)).sum
        = (offsetValuesX (mouseOffsets v.g_pCamera.calls)).sum
          + (p.1.val - v.lastX.toDouble.val) ∧
      (offsetValuesY (mouseOffsets (deliverMouse ieee v samples).g_pCamera.calls)).sum
        = (offsetValuesY (mouseOffsets v.g_pCamera.calls)).sum
          + (v.lastY.toDouble.val - p.2.val)) ∧
    (∀ (u : ViewManager Float32) (first : Double × Double) (rest : List (Double × Double))
      (p : Double × Double),
      u.firstMouse = true → first.1.isFloat → first.2.isFloat →
      exactSamples first.1.toFloat first.2.toFloat rest →
      (first :: rest).getLast? = some p →
      (offsetValuesX
          (mouseOffsets (deliverMouse ieee u (first :: rest)).g_pCamera.calls)).sum
        = (offsetValuesX (mouseOffsets u.g_pCamera.calls)).sum + (p.1.val - first.1.val) ∧
      (offsetValuesY
          (mouseOffsets (deliverMouse ieee u (first :: rest)).g_pCamera.calls)).sum
        = (offsetValuesY (mouseOffsets u.g_pCamera.calls)).sum + (first.2.val - p.2.val)) := by
  obtain ⟨hc, hx, hy, -⟩ := Mouse_Position_Callback_later v x y h
  refine ⟨hc, hx, hy, ?_, ?_, ?_, ?_, ?_, ?_⟩
  · intro hxf; rw [hx]; exact hxf
  · intro hyf; rw [hy]; exact hyf
  · exact Double.exactDiff_toFloat x v.lastX.toDouble
  · exact Double.exactDiff_toFloat v.lastY.toDouble y
  · intro samples p hexact hp
    obtain ⟨i1, i2, i4⟩ := deliverMouse_sums samples v h hexact
    obtain ⟨hpx, hpy⟩ := i4 p hp
    rw [i1, i2, hpx, hpy]
    exact ⟨rfl, rfl⟩
  · intro u first rest p hu hfx hfy hexact hp
    obtain ⟨fc, fx, fy, ff⟩ := Mouse_Position_Callback_seed u first.1 first.2 hu
    have hfx2 : first.1.toFloat.toDouble = first.1 := hfx
    have hfy2 : first.2.toFloat.toDouble = first.2 := hfy
    have hstep : deliverMouse ieee u (first :: rest)
        = deliverMouse ieee (Mouse_Position_Callback ieee u first.1 first.2) rest := rfl
    obtain ⟨i1, i2, i4⟩ := deliverMouse_sums rest
      (Mouse_Position_Callback ieee u first.1 first.2) ff (by rw [fx, fy]; exact hexact)
    have hlast : (deliverMouse ieee (Mouse_Position_Callback ieee u first.1 first.2)
          rest).lastX.toDouble = p.1 ∧
        (deliverMouse ieee (Mouse_Position_Callback ieee u first.1 first.2)
          rest).lastY.toDouble = p.2 := by
      cases rest with
      | nil =>
        simp only [List.getLast?_singleton, Option.some.injEq] at hp
        subst hp
        exact ⟨by rw [show deliverMouse ieee (Mouse_Position_Callback ieee u first.1 first.2) []
            = Mouse_Position_Callback ieee u first.1 first.2 from rfl, fx]; exact hfx2,
          by rw [show deliverMouse ieee (Mouse_Position_Callback ieee u first.1 first.2) []
            = Mouse_Position_Callback ieee u first.1 first.2 from rfl, fy]; exact hfy2⟩
      | cons r rest2 =>
        rw [List.getLast?_cons_cons] at hp
        exact i4 p hp
    have hzero : ((0 : Float32).toDouble).val = 0 := by decide
    rw [hstep, i1, i2, hlast.1, hlast.2, fc, fx, fy, hfx2, hfy2, Double.sub_self_toFloat,
      Double.sub_self_toFloat]
    simp only [mouseOffsets_append, mouseOffsets, offsetValuesX, offsetValuesY, List.map_append,
      List.sum_append, List.map_cons, List.map_nil, List.sum_cons, List.sum_nil, hzero]
    constructor <;> omega

theorem Mouse_Position_Callback_offsets_witness :
    (Mouse_Position_Callback ieee
        (Mouse_Position_Callback ieee ieeeView (Double.ofRat 3 1) (Double.ofRat 4 1))
        (Double.ofRat 10 1) (Double.ofRat 1 1)).g_pCamera.calls
      = [.ProcessMouseMovement 0 0,
         .ProcessMouseMovement (Float32.ofRat 7 1) (Float32.ofRat 3 1)] ∧
    (Mouse_Position_Callback ieee
        (Mouse_Position_Callback ieee ieeeView (Double.ofRat 3 1) (Double.ofRat 4 1))
        (Double.ofRat 10 1) (Double.ofRat 1 1)).lastX.toDouble = Double.ofRat 10 1 ∧
    (Mouse_Position_Callback ieee
        (Mouse_Position_Callback ieee ieeeView (Double.ofRat 3 1) (Double.ofRat 4 1))
        (Double.ofRat 10 1) (Double.ofRat 1 1)).lastY.toDouble = Double.ofRat 1 1 :=
  have h := Mouse_Position_Callback_offsets
    (Mouse_Position_Callback ieee ieeeView (Double.ofRat 3 1) (Double.ofRat 4 1))
    (Double.ofRat 10 1) (Double.ofRat 1 1) (by decide)
  ⟨h.1.trans (by decide), h.2.2.2.1 (by decide), h.2.2.2.2.1 (by decide)⟩

/-- C14 (the claim as stated, refuted): after the first sample (3, 4), the
sample (3.1, 4) passes the horizontal offset 0.100000001490116 (the `float`
nearest to the difference), not the difference 3.1 - 3 = 0.100000000000000089,
and stores `lastX` = 3.099999904632568, not 3.1; and over the samples 0.1,
0.3, 0.7, 100.1 the offsets passed do not add up to 100.1 - 0.1. -/
theorem Mouse_Position_Callback_offsets_inexact :
    (Mouse_Position_Callback ieee ieeeView (Double.ofRat 3 1) (Double.ofRat 4 1)).firstMouse
      = false ∧
    (Mouse_Position_Callback ieee
        (Mouse_Position_Callback ieee ieeeView (Double.ofRat 3 1) (Double.ofRat 4 1))
        (Double.ofRat 31 10) (Double.ofRat 4 1)).g_pCamera.calls
      = [.ProcessMouseMovement 0 0,
         .ProcessMouseMovement (Float32.ofRat 13421773 134217728) 0] ∧
    (Float32.ofRat 13421773 134217728).toDouble.val
      ≠ (Double.ofRat 31 10).val - (Double.ofRat 3 1).val ∧
    (Mouse_Position_Callback ieee
        (Mouse_Position_Callback ieee ieeeView (Double.ofRat 3 1) (Double.ofRat 4 1))
        (Double.ofRat 31 10) (Double.ofRat 4 1)).lastX = Float32.ofRat 6501171 2097152 ∧
    (Mouse_Position_Callback ieee
        (Mouse_Position_Callback ieee ieeeView (Double.ofRat 3 1) (Double.ofRat 4 1))
        (Double.ofRat 31 10) (Double.ofRat 4 1)).lastX.toDouble ≠ Double.ofRat 31 10 ∧
    (offsetValuesX (mouseOffsets (deliverMouse ieee ieeeView
        [(Double.ofRat 1 10, Double.ofRat 0 1), (Double.ofRat 3 10, Double.ofRat 0 1),
         (Double.ofRat 7 10, Double.ofRat 0 1),
         (Double.ofRat 1001 10, Double.ofRat 0 1)]).g_pCamera.calls)).sum
      ≠ (Double.ofRat 1001 10).val - (Double.ofRat 1 10).val := by
  decide

/-- What `Key_Callback` does to the mode flag and to the shader manager. -/
theorem Key_Callback_mode {F : Type} (v : ViewManager F) (key scancode action mods : Int) :
    (Key_Callback v key scancode action mods).bOrthographicProjection
      = (if action = GLFW_PRESS ∧ (key = GLFW_KEY_O ∨ key = GLFW_KEY_P)
          then decide (key = GLFW_KEY_O) else v.bOrthographicProjection) ∧
    (Key_Callback v key scancode action mods).m_pShaderManager = v.m_pShaderManager := by
  unfold Key_Callback
  have hOP : ¬ GLFW_KEY_O = GLFW_KEY_P := by decide
  have hRP : ¬ GLFW_RELEASE = GLFW_PRESS := by decide
  by_cases ha : action = GLFW_PRESS
  · by_cases hp : key = GLFW_KEY_P
    · have hne : ¬ GLFW_KEY_P = GLFW_KEY_O := by decide
      simp [ha, hp, hne]
    · by_cases ho : key = GLFW_KEY_O
      · simp [ha, ho, hOP]
      · simp [ha, hp, ho]
  · by_cases hr : action = GLFW_RELEASE
    · simp [hr, hRP]
    · simp [ha, hr]

/-- The store of `Key_Callback`: a press or a release writes the one index
`key`, whatever its value, and any other action writes nothing. -/
theorem Key_Callback_keys {F : Type} (v : ViewManager F) (key scancode action mods : Int) :
    (Key_Callback v key scancode action mods).keys
      = (match Key_Callback.storeIndex key action with
        | some i => fun k => if k = i then decide (action = GLFW_PRESS) else v.keys k
        | none => v.keys) := by
  unfold Key_Callback Key_Callback.storeIndex
  have hOP : ¬ GLFW_KEY_O = GLFW_KEY_P := by decide
  have hRP : ¬ GLFW_RELEASE = GLFW_PRESS := by decide
  by_cases ha : action = GLFW_PRESS
  · by_cases hp : key = GLFW_KEY_P
    · simp [ha, hp]
    · by_cases ho : key = GLFW_KEY_O
      · simp [ha, ho, hOP]
      · simp [ha, hp, ho]
  · by_cases hr : action = GLFW_RELEASE
    · simp [hr, hRP]
    · simp [ha, hr]

/-- The mode flag as the key events set it, their stores to `keys` apart:
after any sequence of events the flag is true exactly when the most recent
press among O and P was O, and is the flag from before when there was none.
This describes the program as long as every store falls inside the array. -/
theorem deliverKeys_mode {F : Type} :
    ∀ (events : List KeyEvent) (v : ViewManager F),
      (deliverKeys v events).bOrthographicProjection
        = orthographicSelected v.bOrthographicProjection events ∧
      (deliverKeys v events).m_pShaderManager = v.m_pShaderManager := by
  intro events
  induction events with
  | nil => intro v; exact ⟨rfl, rfl⟩
  | cons e rest ih =>
    intro v
    obtain ⟨h1, h2⟩ := Key_Callback_mode v e.key e.scancode e.action e.mods
    obtain ⟨i1, i2⟩ := ih (Key_Callback v e.key e.scancode e.action e.mods)
    have hstep : deliverKeys v (e :: rest)
        = deliverKeys (Key_Callback v e.key e.scancode e.action e.mods) rest := rfl
    rw [hstep]
    refine ⟨?_, i2.trans h2⟩
    rw [i1, h1]
    unfold orthographicSelected
    rw [List.reverse_cons, List.find?_append]
    cases hfind : List.find? KeyEvent.isProjectionPress rest.reverse with
    | some f => simp
    | none =>
      by_cases hp : e.action = GLFW_PRESS ∧ (e.key = GLFW_KEY_O ∨ e.key = GLFW_KEY_P)
      · have : KeyEvent.isProjectionPress e = true := by
          simp [KeyEvent.isProjectionPress, hp.1, hp.2]
        simp [hp, List.find?_cons, this]
        rfl
      · have : KeyEvent.isProjectionPress e = false := by
          simp only [KeyEvent.isProjectionPress, Bool.and_eq_false_iff, Bool.or_eq_false_iff,
            beq_eq_false_iff_ne, ne_eq]
          by_cases ha : e.action = GLFW_PRESS
          · right
            exact ⟨fun ho => hp ⟨ha, Or.inl ho⟩, fun hq => hp ⟨ha, Or.inr hq⟩⟩
          · left; exact ha
        simp [hp, List.find?_cons, this]

/-- A frame leaves the mode flag and the key states as they are, and with a
shader manager attached it writes to `projection` the matrix of the mode the
flag holds: glm::ortho(-(1000/800)*10, (1000/800)*10, -10, 10, 0.1, 100), in
which the zoom does not occur, or
glm::perspective(radians(Zoom), 1000/800, 0.1, 100). -/
theorem PrepareSceneView_mode {F : Type} [Field F] (gm : GlmMath F) (vm : ViewMath F)
    (v : ViewManager F) (clock : F) :
    (PrepareSceneView gm vm v clock).bOrthographicProjection = v.bOrthographicProjection ∧
    (PrepareSceneView gm vm v clock).keys = v.keys ∧
    ∀ sh, v.m_pShaderManager = some sh →
      ∃ sh2, (PrepareSceneView gm vm v clock).m_pShaderManager = some sh2 ∧
        sh2.getUniform "projection" = some (.mat4
          (if v.bOrthographicProjection then
            vm.ortho (-((WINDOW_WIDTH : F) / (WINDOW_HEIGHT : F)) * 10.0)
              ((WINDOW_WIDTH : F) / (WINDOW_HEIGHT : F) * 10.0) (-10.0) 10.0 0.1 100.0
          else
            vm.perspective (gm.radians (vm.Zoom (PrepareSceneView gm vm v clock).g_pCamera))
              ((WINDOW_WIDTH : F) / (WINDOW_HEIGHT : F)) 0.1 100.0)) := by
  have hflag : (ProcessKeyboardEvents
      { v with gDeltaTime := clock - v.gLastFrame, gLastFrame := clock }
      (clock - v.gLastFrame)).bOrthographicProjection = v.bOrthographicProjection := by
    unfold ProcessKeyboardEvents
    split <;> rfl
  have hkeys : (ProcessKeyboardEvents
      { v with gDeltaTime := clock - v.gLastFrame, gLastFrame := clock }
      (clock - v.gLastFrame)).keys = v.keys := by
    unfold ProcessKeyboardEvents
    split <;> rfl
  have hshader : (ProcessKeyboardEvents
      { v with gDeltaTime := clock - v.gLastFrame, gLastFrame := clock }
      (clock - v.gLastFrame)).m_pShaderManager = v.m_pShaderManager := by
    unfold ProcessKeyboardEvents
    split <;> rfl
  refine ⟨?_, ?_, ?_⟩
  · cases hm : v.m_pShaderManager <;> simp only [PrepareSceneView, hshader.trans hm] <;>
      exact hflag
  · cases hm : v.m_pShaderManager <;> simp only [PrepareSceneView, hshader.trans hm] <;>
      exact hkeys
  · intro sh hsh
    simp only [PrepareSceneView, hshader.trans hsh, hflag]
    refine ⟨_, rfl, ?_⟩
    unfold ShaderManager.setVec3Value ShaderManager.setMat4Value
    rw [ShaderManager.getUniform_setUniform_other _ "viewPosition" _ _ (by decide)]
    rw [show ("projection" : String) = g_ProjectionName from rfl,
      ShaderManager.getUniform_setUniform_same]
    cases v.bOrthographicProjection <;> simp [PrepareSceneView.projection]

/-- C16 (the code on the first frame): on a freshly constructed view manager
with the key W held, the first `PrepareSceneView`, whatever the clock reads,
sets `gDeltaTime` to the clock reading itself and passes it to the camera as
the time of the forward movement; with a reading of 5 the camera receives
`ProcessKeyboard(FORWARD, 5)`.  A later frame gets the difference of the two
readings. -/
theorem PrepareSceneView_first_frame :
    (∀ (F : Type) [Field F] (gm : GlmMath F) (vm : ViewMath F)
        (pShaderManager : Option (ShaderManager F)) (clock : F),
      (PrepareSceneView gm vm
        (Key_Callback (ViewManager.new pShaderManager) GLFW_KEY_W 0 GLFW_PRESS 0)
        clock).gDeltaTime = clock ∧
      (PrepareSceneView gm vm
        (Key_Callback (ViewManager.new pShaderManager) GLFW_KEY_W 0 GLFW_PRESS 0)
        clock).g_pCamera.calls = [.ProcessKeyboard .FORWARD clock]) ∧
    (PrepareSceneView exampleMath exampleViewMath
      (Key_Callback exampleView GLFW_KEY_W 0 GLFW_PRESS 0) 5).g_pCamera.calls
        = [.ProcessKeyboard .FORWARD 5] ∧
    (PrepareSceneView exampleMath exampleViewMath
      (PrepareSceneView exampleMath exampleViewMath
        (Key_Callback exampleView GLFW_KEY_W 0 GLFW_PRESS 0) 5) 7).g_pCamera.calls
        = [.ProcessKeyboard .FORWARD 5, .ProcessKeyboard .FORWARD 2] := by
  have hgen : ∀ (F : Type) [Field F] (gm : GlmMath F) (vm : ViewMath F)
      (pShaderManager : Option (ShaderManager F)) (clock : F),
      (PrepareSceneView gm vm
        (Key_Callback (ViewManager.new pShaderManager) GLFW_KEY_W 0 GLFW_PRESS 0)
        clock).gDeltaTime = clock ∧
      (PrepareSceneView gm vm
        (Key_Callback (ViewManager.new pShaderManager) GLFW_KEY_W 0 GLFW_PRESS 0)
        clock).g_pCamera.calls = [.ProcessKeyboard .FORWARD clock] := by
    intro F _ gm vm pShaderManager clock
    have hz : (0.0 : F) = 0 := by norm_num
    cases pShaderManager <;>
      simp [PrepareSceneView, ProcessKeyboardEvents, Key_Callback, ViewManager.new,
        Camera.ProcessKeyboard, GLFW_KEY_W, GLFW_PRESS, GLFW_KEY_P, GLFW_KEY_O, GLFW_KEY_ESCAPE,
        GLFW_KEY_S, GLFW_KEY_A, GLFW_KEY_D, GLFW_KEY_Q, GLFW_KEY_E, hz]
  refine ⟨hgen, (hgen ℚ exampleMath exampleViewMath _ 5).2, ?_⟩
  have h1 := hgen ℚ exampleMath exampleViewMath (some { uniforms := [] }) 5
  simp [PrepareSceneView, ProcessKeyboardEvents, Key_Callback, ViewManager.new, exampleView,
    Camera.ProcessKeyboard, GLFW_KEY_W, GLFW_PRESS, GLFW_KEY_P, GLFW_KEY_O, GLFW_KEY_ESCAPE,
    GLFW_KEY_S, GLFW_KEY_A, GLFW_KEY_D, GLFW_KEY_Q, GLFW_KEY_E]
  norm_num

/-- C17 (the code at the failing input): with two textures registered under the
GL names 1 and 2, `DestroyGLTextures` generates two further names, 3 and 4,
and stores them over the registered IDs; nothing is deleted.  A second call
generates the names 5 and 6, so two calls do not leave the state of one. -/
theorem DestroyGLTextures_generates :
    twoLoaded.m_loadedTextures = 2 ∧
    twoLoaded.gl.generated = 2 ∧
    (twoLoaded.m_textureIDs 0).ID = 1 ∧ (twoLoaded.m_textureIDs 1).ID = 2 ∧
    (DestroyGLTextures twoLoaded).gl.generated = 4 ∧
    ((DestroyGLTextures twoLoaded).m_textureIDs 0).ID = 3 ∧
    ((DestroyGLTextures twoLoaded).m_textureIDs 1).ID = 4 ∧
    (DestroyGLTextures twoLoaded).m_loadedTextures = 2 ∧
    (DestroyGLTextures (DestroyGLTextures twoLoaded)).gl.generated = 6 ∧
    ((DestroyGLTextures (DestroyGLTextures twoLoaded)).m_textureIDs 0).ID = 5 ∧
    ((DestroyGLTextures (DestroyGLTextures twoLoaded)).m_textureIDs 1).ID = 6 ∧
    (DestroyGLTextures (DestroyGLTextures twoLoaded)).gl ≠ (DestroyGLTextures twoLoaded).gl := by
  decide

end CS330
